import Mathlib

/-!
# Traffic Ops user resource: validation pipeline and transactional CRUD

A shallow embedding of

* `lib/go-tc/users.go` (`UserNullable`),
* `traffic_ops/traffic_ops_golang/tovalidate/rules.go` (`IsGoodPassword`, `IsOneOfString`),
* `traffic_ops/traffic_ops_golang/user/users.go` (`TOUser` and its methods),

followed by theorems about them.

Conventions of the embedding:

* a Go pointer field `*T` is an `Option T` (`nil` is `none`);
* a Go `string` is a Lean `String`, and `len(s)` is `s.utf8ByteSize` (a byte count);
* a Go `error` is an `Option String` holding the text of `err.Error()` (`nil` is `none`);
* collaborators that live outside the embedded files (the SQL driver, the password hash,
  the conflict translator, the tenant check, the e-mail syntax check, the deny-list file)
  are explicit arguments.
-/

set_option autoImplicit false

namespace tc

/-- The `tc.TimeNoMod` timestamp wrapper: a time and a validity flag; the zero value is
`{Time := 0, Valid := false}`. -/
structure TimeNoMod where
  Time : Int := 0
  Valid : Bool := false
deriving DecidableEq, Repr

/-- The kinds of `tc.ApiErrorType` that `users.go` returns. -/
inductive ApiErrorType where
  | NoError
  | DataConflictError
  | DataMissingError
  | SystemError
deriving DecidableEq, Repr

/-- The record `tc.UserNullable` of `lib/go-tc/users.go`: every field is a pointer. -/
structure UserNullable where
  Active : Option Bool := none
  AddressLine1 : Option String := none
  AddressLine2 : Option String := none
  City : Option String := none
  Company : Option String := none
  Country : Option String := none
  Email : Option String := none
  FullName : Option String := none
  GID : Option Int := none
  ID : Option Int := none
  LastUpdated : Option TimeNoMod := none
  LocalPasswd : Option String := none
  NewUser : Option Bool := none
  PhoneNumber : Option String := none
  PostalCode : Option String := none
  PublicSSHKey : Option String := none
  RegistrationSent : Option TimeNoMod := none
  Role : Option Int := none
  RoleName : Option String := none
  StateOrProvince : Option String := none
  TenantID : Option Int := none
  Token : Option String := none
  UID : Option Int := none
  Username : Option String := none
deriving DecidableEq, Repr

end tc

/-- The type `TOUser` of `users.go`: `type TOUser tc.UserNullable`. -/
abbrev TOUser := tc.UserNullable

/-! ## The validation library used by `TOUser.Validate`

`users.go` imports `github.com/go-ozzo/ozzo-validation` as `validation`. The pieces it calls
are embedded here with the library's behaviour: a rule maps a value to an error or `nil`, and
`validation.Validate` returns the error of the first rule that fails. -/

namespace validation

/-- The `interface{}` values that `TOUser.Validate` hands to the rules: a `*string` or `*int`
field, possibly `nil`. -/
inductive Value where
  | nilPtr
  | strPtr (s : String)
  | intPtr (i : Int)
deriving DecidableEq, Repr

/-- A `*string` field as a rule argument. -/
def Value.ofString : Option String → Value
  | none => .nilPtr
  | some s => .strPtr s

/-- A `*int` field as a rule argument. -/
def Value.ofInt : Option Int → Value
  | none => .nilPtr
  | some i => .intPtr i

/-- The second component of `validation.Indirect`: whether the pointer is `nil`. -/
def isNil : Value → Bool
  | .nilPtr => true
  | _ => false

/-- Library function `validation.IsEmpty` on the dereferenced value: a string is empty when its
length is zero, an integer when it is zero. -/
def IsEmpty : Value → Bool
  | .nilPtr => true
  | .strPtr s => s.utf8ByteSize == 0
  | .intPtr i => i == 0

/-- A validation rule: `Validate(value) error`. -/
abbrev Rule := Value → Option String

/-- The rule `validation.Required`: a `nil` or empty value is rejected with
"cannot be blank". -/
def Required : Rule := fun value =>
  if isNil value || IsEmpty value then some "cannot be blank" else none

/-- The rule built by `validation.NewStringRule(validator, message)`: a `nil` or empty value is
accepted without calling the validator; a string is accepted when the validator returns true and
rejected with `message` otherwise. -/
def NewStringRule (validator : String → Bool) (message : String) : Rule := fun value =>
  if isNil value || IsEmpty value then none
  else
    match value with
    | .strPtr s => if validator s then none else some message
    | _ => some "must be either a string or byte slice"

/-- Library function `validation.Validate(value, rules...)`: the loop
`for _, rule := range rules` returns `err` as soon as `rule.Validate(value)` gives a non-nil
`err`, so the result is the error of the first rule that fails, and `nil` when none fails. -/
def Validate (value : Value) : List Rule → Option String
  | [] => none
  | rule :: rules =>
    match rule value with
    | some err => some err
    | none => Validate value rules

end validation

namespace is

/-- The rule `is.Email` of ozzo-validation: a string rule over the syntax check
`govalidator.IsEmail`, which is an argument here. -/
def Email (IsEmail : String → Bool) : validation.Rule :=
  validation.NewStringRule IsEmail "must be a valid email address"

end is

/-! ## `tovalidate` -/

/-- The part of the database that validation reads: the rows of `tm_user` and the ids present
in `role` and `tenant`. -/
structure DB where
  tm_user : List TOUser := []
  role : List Int := []
  tenant : List Int := []

/-- The values of one column of one table, each with the id of its row, for the four
table/column pairs that `TOUser.Validate` names. -/
def DB.column (db : DB) (table column : String) : List (Option Int × validation.Value) :=
  if table = "tm_user" ∧ column = "username" then
    db.tm_user.map fun row => (row.ID, validation.Value.ofString row.Username)
  else if table = "tm_user" ∧ column = "email" then
    db.tm_user.map fun row => (row.ID, validation.Value.ofString row.Email)
  else if table = "role" ∧ column = "id" then
    db.role.map fun id => (some id, validation.Value.intPtr id)
  else if table = "tenant" ∧ column = "id" then
    db.tenant.map fun id => (some id, validation.Value.intPtr id)
  else []

/-- What is ambient to a validation call: the e-mail syntax check `govalidator.IsEmail`, the
content of the file `conf/invalid_passwords.txt` (`none` when the file cannot be opened), and
the message texts of the two database rules. -/
structure Ambient where
  IsEmail : String → Bool
  invalidPasswords : Option String
  uniqueMessage : String → String → String
  existsMessage : String → String → String

/-! ### The line scanner

`IsGoodPassword` reads the file through `bufio.NewScanner(f)`, whose split function is
`bufio.ScanLines` and whose buffer holds at most `bufio.MaxScanTokenSize` bytes. `Scan` returns
false at the end of the input and also when a line does not fit the buffer (`ErrTooLong`);
`IsGoodPassword` does not look at `scanner.Err()`. -/

namespace bufio

/-- Library constant `bufio.MaxScanTokenSize`. -/
def MaxScanTokenSize : Nat :=
  64 * 1024

/-- Library function `dropCR`: a final carriage return is dropped. -/
def dropCR (data : List Char) : List Char :=
  if data.getLast? = some '\r' then data.dropLast else data

/-- The lines of an input as `bufio.ScanLines` cuts them: every newline ends a line, and a
non-empty rest after the last newline is a final line. The lines are given without their
newline and before `dropCR`. -/
def lines : List Char → List (List Char)
  | [] => []
  | c :: rest =>
    if c = '\n' then [] :: lines rest
    else
      match lines rest with
      | [] => [[c]]
      | line :: more => (c :: line) :: more

/-- The length in bytes of a piece of the input. -/
def byteLen (data : List Char) : Nat :=
  (String.mk data).utf8ByteSize

/-- The tokens that successive calls of `Scan` yield, as `Text()` returns them: the lines in
order, each after `dropCR`, up to the first line of `MaxScanTokenSize` bytes or more, at which
`Scan` returns false for good. -/
def scanLines (content : String) : List String :=
  ((lines content.data).takeWhile fun line => byteLen line < MaxScanTokenSize).map
    fun line => String.mk (dropCR line)

end bufio

namespace tovalidate

/-- Function `IsOneOfString(set...)(s)` of `rules.go`. -/
def IsOneOfString (set : List String) (s : String) : Bool :=
  match set with
  | [] => false
  | x :: rest => if s = x then true else IsOneOfString rest s

/-- The first loop of `IsGoodPassword`: false as soon as a non-nil context word equals the
new password. -/
def notInBadPasswords (newPassword : String) : List (Option String) → Bool
  | [] => true
  | none :: rest => notInBadPasswords newPassword rest
  | some pw :: rest => if pw = newPassword then false else notInBadPasswords newPassword rest

/-- The loop `for scanner.Scan()` of `IsGoodPassword` over the tokens of the scanner: false as
soon as a token equals the new password. -/
def notInFile (newPassword : String) : List String → Bool
  | [] => true
  | line :: rest => if newPassword = line then false else notInFile newPassword rest

/-- Function `IsGoodPassword(badPasswords...)(newPassword)` of `rules.go`; `file` is the content
of the deny-list file. When the file cannot be opened the error is logged and the scanner over
the nil file yields no line. -/
def IsGoodPassword (badPasswords : List (Option String)) (file : Option String)
    (newPassword : String) : Bool :=
  if newPassword.utf8ByteSize < 8 then false
  else if !notInBadPasswords newPassword badPasswords then false
  else
    match file with
    | none => true
    | some content => notInFile newPassword (bufio.scanLines content)

/-- Modelled from the spec: `tovalidate.NewDBExistsRule` (file `tovalidate/db.go`, not under
src/). "must exist in the role store" / "must exist in the tenant store": a present, non-empty
value is rejected when no row of the table carries it in the column. Without a database handle
(`Validate(nil)` in `TestValidate`) the rule accepts. -/
def NewDBExistsRule (amb : Ambient) (db : Option DB) (table column : String) :
    validation.Rule := fun value =>
  match db with
  | none => none
  | some store =>
    if validation.isNil value || validation.IsEmpty value then none
    else if (store.column table column).any (fun row => row.2 = value) then none
    else some (amb.existsMessage table column)

/-- Modelled from the spec: `tovalidate.NewDBUniqueRule` (file `tovalidate/db.go`, not under
src/). "unique-against-store (excluding the record's own current id when updating)": a present,
non-empty value is rejected when some row of the table carries it in the column and that row's
id does not pass `idCheck`. Without a database handle the rule accepts. -/
def NewDBUniqueRule (amb : Ambient) (db : Option DB) (table column : String)
    (idCheck : Int → Bool) : validation.Rule := fun value =>
  match db with
  | none => none
  | some store =>
    if validation.isNil value || validation.IsEmpty value then none
    else if (store.column table column).any
        (fun row => row.2 = value && !(match row.1 with | some id => idCheck id | none => false))
      then some (amb.uniqueMessage table column)
    else none

/-- The text of a field-tagged error, as `TestValidate` expects it: the field name in single
quotes, a blank, the message. -/
def fieldError (key message : String) : String :=
  "'" ++ key ++ "' " ++ message

/-- Modelled from the spec: `tovalidate.ToErrors` (not under src/). "an ordered list of
field-tagged errors": every field of the `validation.Errors` map whose error is not `nil` gives
one error, rendered as in `TestValidate`: the field name in single quotes, a blank, the
message. The Go map has no iteration order; the order of the literal in `users.go` is used. -/
def ToErrors : List (String × Option String) → List String
  | [] => []
  | (_, none) :: rest => ToErrors rest
  | (key, some value) :: rest => fieldError key value :: ToErrors rest

end tovalidate

/-! ## `user` -/

namespace TOUser

/-- The closure `matchesID` of `TOUser.Validate`. -/
def matchesID (user : TOUser) (id : Int) : Bool :=
  user.ID.isNone || user.ID == some id

/-- The rule `isGoodPassword` of `TOUser.Validate`. -/
def isGoodPassword (user : TOUser) (amb : Ambient) : validation.Rule :=
  validation.NewStringRule
    (tovalidate.IsGoodPassword [user.Username, user.Email] amb.invalidPasswords)
    "password is too common"

/-- The rules of the entry "email" of the `validation.Errors` literal. -/
def emailRules (user : TOUser) (amb : Ambient) (db : Option DB) : List validation.Rule :=
  [validation.Required, is.Email amb.IsEmail,
    tovalidate.NewDBUniqueRule amb db "tm_user" "email" (matchesID user)]

/-- The rules of the entry "fullName". -/
def fullNameRules : List validation.Rule :=
  [validation.Required]

/-- The rules of the entry "localPasswd". -/
def localPasswdRules (user : TOUser) (amb : Ambient) : List validation.Rule :=
  [validation.Required, isGoodPassword user amb]

/-- The rules of the entry "role". -/
def roleRules (amb : Ambient) (db : Option DB) : List validation.Rule :=
  [validation.Required, tovalidate.NewDBExistsRule amb db "role" "id"]

/-- The rules of the entry "username". -/
def usernameRules (user : TOUser) (amb : Ambient) (db : Option DB) : List validation.Rule :=
  [validation.Required, tovalidate.NewDBUniqueRule amb db "tm_user" "username" (matchesID user)]

/-- The rules of the entry "tenant". -/
def tenantRules (amb : Ambient) (db : Option DB) : List validation.Rule :=
  [validation.Required, tovalidate.NewDBExistsRule amb db "tenant" "id"]

/-- The six entries of the `validation.Errors` literal of `TOUser.Validate`, in the order of
the literal: the key, the value validated and the rules given for it. -/
def fieldRules (user : TOUser) (amb : Ambient) (db : Option DB) :
    List (String × validation.Value × List validation.Rule) :=
  [ ("email", .ofString user.Email, emailRules user amb db),
    ("fullName", .ofString user.FullName, fullNameRules),
    ("localPasswd", .ofString user.LocalPasswd, localPasswdRules user amb),
    ("role", .ofInt user.Role, roleRules amb db),
    ("username", .ofString user.Username, usernameRules user amb db),
    ("tenant", .ofInt user.TenantID, tenantRules amb db) ]

/-- The map `errs` of `TOUser.Validate`: each key with the result of `validation.Validate` on
its value and rules. -/
def validationErrors (user : TOUser) (amb : Ambient) (db : Option DB) :
    List (String × Option String) :=
  (fieldRules user amb db).map fun entry => (entry.1, validation.Validate entry.2.1 entry.2.2)

/-- Method `TOUser.Validate(db)` of `users.go`. -/
def Validate (user : TOUser) (amb : Ambient) (db : Option DB) : List String :=
  tovalidate.ToErrors (validationErrors user amb db)

end TOUser

/-! ## Identity and tenancy -/

namespace TOUser

/-- Method `TOUser.GetID()` of `users.go`. -/
def GetID (user : TOUser) : Int × Bool :=
  match user.ID with
  | none => (0, false)
  | some id => (id, true)

/-- Method `TOUser.SetID(i)` of `users.go`. -/
def SetID (user : TOUser) (i : Int) : TOUser :=
  { user with ID := some i }

/-- Method `TOUser.IsTenantAuthorized(currentUser, db)` of `users.go`. The receiver is a
pointer and may be nil. The tenant collaborator `tenant.IsResourceAuthorizedToUser` is an
argument; the second component of the result lists the tenant ids it was asked about, in
order, so that "the collaborator was not consulted" can be stated. -/
def IsTenantAuthorized {CurrentUser SqlDB : Type}
    (IsResourceAuthorizedToUser : Int → CurrentUser → SqlDB → Bool × Option String)
    (user : Option TOUser) (currentUser : CurrentUser) (db : SqlDB) :
    (Bool × Option String) × List Int :=
  match user with
  | none => ((false, none), [])
  | some u =>
    match u.TenantID with
    | none => ((false, none), [])
    | some tenantID => (IsResourceAuthorizedToUser tenantID currentUser db, [tenantID])

end TOUser

/-! ## The transactional operations

`Create`, `Update` and `Delete` talk to the database through `sqlx`. The driver is a record of
functions over an arbitrary database state `σ`; each operation also logs the collaborator calls
it makes, in order. -/

namespace pq

/-- The fields of a `pq.Error` that a conflict translator can look at. -/
structure Error where
  Code : String := ""
  Message : String := ""
  Detail : String := ""
  Constraint : String := ""
deriving DecidableEq, Repr

end pq

/-- The three statements of `users.go` that modify data, by the function that returns their
SQL text. -/
inductive Query where
  | insertQuery
  | updateQuery
  | deactivateUserQuery
deriving DecidableEq, Repr

/-- The error of a failed statement: a `*pq.Error` (the type assertion `err.(*pq.Error)`
succeeds) or any other error, with its text. -/
inductive StmtError where
  | pqError (e : pq.Error)
  | other (message : String)
deriving DecidableEq, Repr

/-- The text `err.Error()` of a statement error. -/
def StmtError.Error : StmtError → String
  | .pqError e => "pq: " ++ e.Message
  | .other message => message

/-- One row of a statement's result set as `Scan` sees it: the scan fails with an error, or
yields the returned columns (`id` is read by `Create` only). -/
structure ScannedRow where
  id : Int := 0
  last_updated : tc.TimeNoMod := {}
deriving DecidableEq, Repr

/-- The `sqlx` handle and transaction as functions on a database state `σ`.
`Beginx` returns an error or opens a transaction (the returned `tx` is nil exactly when there is
an error); `NamedQuery` returns an error or the rows, each of which scans or fails to scan;
`NamedExec` returns an error or a result whose `RowsAffected()` is a count or an error. -/
structure Driver (σ : Type) where
  Beginx : σ → Option String × σ
  NamedQuery : Query → TOUser → σ → Except StmtError (List (Except String ScannedRow)) × σ
  NamedExec : Query → TOUser → σ → Except StmtError (Except String Int) × σ
  Commit : σ → Option String × σ
  Rollback : σ → Option String × σ

/-- A collaborator call made by an operation. -/
inductive Call where
  | Beginx
  | DerivePassword (plain : String)
  | NamedQuery (query : Query) (arg : TOUser)
  | NamedExec (query : Query) (arg : TOUser)
  | Commit
  | Rollback
deriving DecidableEq, Repr

/-- What an operation leaves behind: the returned `(error, kind)` pair, or `none` when the
operation aborts with a nil-pointer dereference; the in-memory record; the database state; and
the calls made. -/
structure Outcome (σ : Type) where
  result : Option (Option String × tc.ApiErrorType)
  user : TOUser
  db : σ
  calls : List Call

/-- The collaborators of `Create` and `Update` besides the driver: the password hash
`auth.DerivePassword` and the conflict translator `dbhelpers.ParsePQUniqueConstraintError`,
which returns an error text and a kind. -/
structure Collaborators where
  DerivePassword : String → Except String String
  ParsePQUniqueConstraintError : pq.Error → String × tc.ApiErrorType

namespace TOUser

/-- The deferred function of the three operations, run on every exit after the transaction was
opened: it rolls back unless `rollbackTransaction` was cleared. A rollback error is only
logged. -/
def finish {σ : Type} (drv : Driver σ) (rollbackTransaction : Bool)
    (result : Option (Option String × tc.ApiErrorType)) (user : TOUser) (db : σ)
    (calls : List Call) : Outcome σ :=
  if rollbackTransaction then
    { result := result, user := user, db := (drv.Rollback db).2, calls := calls ++ [.Rollback] }
  else
    { result := result, user := user, db := db, calls := calls }

/-- The branch `if err != nil` after `tx.NamedQuery` in `Create` and `Update`. -/
def statementError (collab : Collaborators) (err : StmtError) :
    Option String × tc.ApiErrorType :=
  match err with
  | .pqError pqErr =>
    let parsed := collab.ParsePQUniqueConstraintError pqErr
    if parsed.2 = .DataConflictError then (some ("a user with " ++ parsed.1), parsed.2)
    else (some parsed.1, parsed.2)
  | .other message => (some message, .SystemError)

/-- The loop `for resultRows.Next()` of `Create`: counts the rows and scans each into `id` and
`lastUpdated`; the first scan error ends the operation. -/
def scanCreate : List (Except String ScannedRow) → Nat → Int → tc.TimeNoMod →
    Except String (Nat × Int × tc.TimeNoMod)
  | [], rowsAffected, id, lastUpdated => .ok (rowsAffected, id, lastUpdated)
  | .error err :: _, _, _, _ => .error err
  | .ok row :: rest, rowsAffected, _, _ =>
    scanCreate rest (rowsAffected + 1) row.id row.last_updated

/-- The loop `for resultRows.Next()` of `Update`: counts the rows and scans each into
`lastUpdated`. -/
def scanUpdate : List (Except String ScannedRow) → Nat → tc.TimeNoMod →
    Except String (Nat × tc.TimeNoMod)
  | [], rowsAffected, lastUpdated => .ok (rowsAffected, lastUpdated)
  | .error err :: _, _, _ => .error err
  | .ok row :: rest, rowsAffected, _ => scanUpdate rest (rowsAffected + 1) row.last_updated

/-- Method `TOUser.Create(db, u)` of `users.go`. -/
def Create {σ : Type} (drv : Driver σ) (collab : Collaborators) (user : TOUser) (db : σ) :
    Outcome σ :=
  match drv.Beginx db with
  | (some err, db1) =>
    { result := some (some err, .SystemError), user := user, db := db1, calls := [.Beginx] }
  | (none, db1) =>
    match user.LocalPasswd with
    | none => finish drv true none user db1 [.Beginx]
    | some plain =>
      match collab.DerivePassword plain with
      | .error err =>
        finish drv true (some (some err, .SystemError)) user db1 [.Beginx, .DerivePassword plain]
      | .ok encPassword =>
        let user1 : TOUser := { user with LocalPasswd := some encPassword }
        let calls := [Call.Beginx, .DerivePassword plain, .NamedQuery .insertQuery user1]
        match drv.NamedQuery .insertQuery user1 db1 with
        | (.error err, db2) => finish drv true (some (statementError collab err)) user1 db2 calls
        | (.ok resultRows, db2) =>
          match scanCreate resultRows 0 0 {} with
          | .error err => finish drv true (some (some err, .SystemError)) user1 db2 calls
          | .ok (rowsAffected, id, lastUpdated) =>
            if rowsAffected = 0 then
              finish drv true
                (some (some "no user was inserted, no id was returned", .SystemError))
                user1 db2 calls
            else if rowsAffected > 1 then
              finish drv true (some (some "too many ids returned from user insert", .SystemError))
                user1 db2 calls
            else
              let user2 : TOUser := { SetID user1 id with LastUpdated := some lastUpdated }
              match drv.Commit db2 with
              | (some err, db3) =>
                finish drv true (some (some err, .SystemError)) user2 db3 (calls ++ [.Commit])
              | (none, db3) =>
                finish drv false (some (none, .NoError)) user2 db3 (calls ++ [.Commit])

/-- Method `TOUser.Update(db, u)` of `users.go`. -/
def Update {σ : Type} (drv : Driver σ) (collab : Collaborators) (user : TOUser) (db : σ) :
    Outcome σ :=
  match drv.Beginx db with
  | (some err, db1) =>
    { result := some (some err, .SystemError), user := user, db := db1, calls := [.Beginx] }
  | (none, db1) =>
    match user.LocalPasswd with
    | none => finish drv true none user db1 [.Beginx]
    | some plain =>
      match collab.DerivePassword plain with
      | .error err =>
        finish drv true (some (some err, .SystemError)) user db1 [.Beginx, .DerivePassword plain]
      | .ok encPassword =>
        let user1 : TOUser := { user with LocalPasswd := some encPassword }
        let calls := [Call.Beginx, .DerivePassword plain, .NamedQuery .updateQuery user1]
        match drv.NamedQuery .updateQuery user1 db1 with
        | (.error err, db2) => finish drv true (some (statementError collab err)) user1 db2 calls
        | (.ok resultRows, db2) =>
          match scanUpdate resultRows 0 {} with
          | .error err => finish drv true (some (some err, .SystemError)) user1 db2 calls
          | .ok (rowsAffected, lastUpdated) =>
            let user2 : TOUser := { user1 with LastUpdated := some lastUpdated }
            if rowsAffected ≠ 1 then
              if rowsAffected < 1 then
                finish drv true (some (some "no user found with this id", .DataMissingError))
                  user2 db2 calls
              else
                finish drv true
                  (some (some ("this update affected too many rows: " ++ toString rowsAffected),
                    .SystemError))
                  user2 db2 calls
            else
              match drv.Commit db2 with
              | (some err, db3) =>
                finish drv true (some (some err, .SystemError)) user2 db3 (calls ++ [.Commit])
              | (none, db3) =>
                finish drv false (some (none, .NoError)) user2 db3 (calls ++ [.Commit])

/-- Method `TOUser.Delete(db, u)` of `users.go`. -/
def Delete {σ : Type} (drv : Driver σ) (user : TOUser) (db : σ) : Outcome σ :=
  match drv.Beginx db with
  | (some err, db1) =>
    { result := some (some err, .SystemError), user := user, db := db1, calls := [.Beginx] }
  | (none, db1) =>
    let calls := [Call.Beginx, .NamedExec .deactivateUserQuery user]
    match drv.NamedExec .deactivateUserQuery user db1 with
    | (.error err, db2) => finish drv true (some (some err.Error, .SystemError)) user db2 calls
    | (.ok (.error err), db2) => finish drv true (some (some err, .SystemError)) user db2 calls
    | (.ok (.ok rowsAffected), db2) =>
      if rowsAffected ≠ 1 then
        if rowsAffected < 1 then
          finish drv true (some (some "no user with that id found", .DataMissingError))
            user db2 calls
        else
          finish drv true
            (some (some ("this create affected too many rows: " ++ toString rowsAffected),
              .SystemError))
            user db2 calls
      else
        match drv.Commit db2 with
        | (some err, db3) =>
          finish drv true (some (some err, .SystemError)) user db3 (calls ++ [.Commit])
        | (none, db3) =>
          finish drv false (some (none, .NoError)) user db3 (calls ++ [.Commit])

end TOUser

/-! ## An in-memory store

The statements of `users.go` interpreted on a list of rows, with a transaction that works on a
copy of the table: `Commit` publishes the copy, `Rollback` drops it. The store has a clock, the
time at which a statement runs. Constraints and defaults of the schema are not part of this
store. -/

/-- The table `tm_user` as committed, the rows as seen by the open transaction, if any, and the
time of the store's clock. -/
structure MemDB where
  table : List TOUser
  tx : Option (List TOUser) := none
  now : tc.TimeNoMod := {}

/-- The predicate `WHERE id=:id`: true for a row whose id equals the argument's id; a NULL on
either side matches nothing. -/
def whereID (arg row : TOUser) : Bool :=
  match row.ID, arg.ID with
  | some rowID, some argID => rowID == argID
  | _, _ => false

namespace MemDB

/-- Statement `updateQuery()`: every column of the matching rows is rewritten from the
argument (`role_name` is not a column of `tm_user`). -/
def runUpdate (arg : TOUser) (rows : List TOUser) : List TOUser :=
  rows.map fun row => if whereID arg row then { arg with RoleName := row.RoleName } else row

/-- Modelled from the spec: the effect of the statement `deactivateUserQuery()` in the
database, whose schema is not under src/. "single-column flip of `active`, `lastUpdated`
implicitly updated by the same statement": in every row that `WHERE id=:id` matches, `active`
becomes false and `last_updated` becomes the time of the statement; "no other field is erased on
deactivation". -/
def runDeactivate (now : tc.TimeNoMod) (arg : TOUser) (rows : List TOUser) : List TOUser :=
  rows.map fun row =>
    if whereID arg row then { row with Active := some false, LastUpdated := some now } else row

/-- Statement `insertQuery()`: one row is appended. -/
def runInsert (arg : TOUser) (rows : List TOUser) : List TOUser :=
  rows ++ [{ arg with RoleName := none }]

/-- The rows a statement returns (`RETURNING ...`), one per affected row. -/
def returning (arg : TOUser) (affected : List TOUser) : List (Except String ScannedRow) :=
  affected.map fun _ =>
    .ok { id := arg.ID.getD 0, last_updated := arg.LastUpdated.getD {} }

/-- The text of the `database/sql` error for a statement outside a transaction. -/
def txDone : String := "sql: transaction has already been committed or rolled back"

/-- The three statements on the rows of the open transaction, run at the time `now`: the rows
after the statement and the rows it affected, which for the two updates are the rows that
`WHERE id=:id` matches. -/
def run (now : tc.TimeNoMod) (query : Query) (arg : TOUser) (rows : List TOUser) :
    List TOUser × List TOUser :=
  match query with
  | .insertQuery => (runInsert arg rows, [arg])
  | .updateQuery => (runUpdate arg rows, rows.filter (whereID arg))
  | .deactivateUserQuery => (runDeactivate now arg rows, rows.filter (whereID arg))

/-- The in-memory store as a driver. -/
def driver : Driver MemDB where
  Beginx := fun db => (none, { db with tx := some db.table })
  NamedQuery := fun query arg db =>
    match db.tx with
    | none => (.error (.other txDone), db)
    | some rows =>
      (.ok (returning arg (run db.now query arg rows).2),
        { db with tx := some (run db.now query arg rows).1 })
  NamedExec := fun query arg db =>
    match db.tx with
    | none => (.error (.other txDone), db)
    | some rows =>
      (.ok (.ok (run db.now query arg rows).2.length),
        { db with tx := some (run db.now query arg rows).1 })
  Commit := fun db =>
    match db.tx with
    | none => (some txDone, db)
    | some rows => (none, { db with table := rows, tx := none })
  Rollback := fun db =>
    match db.tx with
    | none => (some txDone, db)
    | some _ => (none, { db with tx := none })

end MemDB

/-! ## Further functions of `rules.go` and `users.go`, and the struct tags of `UserNullable` -/

namespace tovalidate

/-- The loop of `IsOneOfStringICase` that builds `lowcased`: each member of the set is lowered
and appended. `strings.ToLower` is an argument. -/
def lowcased (ToLower : String → String) : List String → List String
  | [] => []
  | s :: rest => ToLower s :: lowcased ToLower rest

/-- Function `IsOneOfStringICase(set...)(s)` of `rules.go`: `IsOneOfString` over the lowered
set. -/
def IsOneOfStringICase (ToLower : String → String) (set : List String) (s : String) : Bool :=
  IsOneOfString (lowcased ToLower set) s

end tovalidate

namespace strconv

/-- Library function `strconv.Itoa`: the decimal text of an integer. -/
def Itoa (i : Int) : String :=
  toString i

end strconv

namespace TOUser

/-- Method `TOUser.GetAuditName()` of `users.go`. -/
def GetAuditName (user : TOUser) : String :=
  match user.Username with
  | some username => username
  | none => strconv.Itoa (GetID user).1

/-- Method `TOUser.GetType()` of `users.go`. -/
def GetType (_user : TOUser) : String :=
  "user"

end TOUser

namespace tc

/-- The struct tags of `UserNullable` in `lib/go-tc/users.go`, line by line: the Go field, its
`json` tag and its `db` tag. -/
def UserNullable.tags : List (String × String × String) :=
  [ ("Active", "active,omitempty", "active"),
    ("AddressLine1", "addressLine1", "address_line1"),
    ("AddressLine2", "addressLine2", "address_line2"),
    ("City", "city", "city"),
    ("Company", "company,omitempty", "company"),
    ("Country", "country", "country"),
    ("Email", "email,omitempty", "email"),
    ("FullName", "fullName,omitempty", "full_name"),
    ("GID", "gid,omitempty", "gid"),
    ("ID", "id,omitempty", "id"),
    ("LastUpdated", "lastUpdated,omitempty", "last_updated"),
    ("LocalPasswd", "localPasswd", "local_passwd"),
    ("NewUser", "newUser,omitempty", "new_user"),
    ("PhoneNumber", "phoneNumber", "phone_number"),
    ("PostalCode", "postalCode", "postal_code"),
    ("PublicSSHKey", "publicSshKey,omitempty", "public_ssh_key"),
    ("RegistrationSent", "registrationSent", "registration_sent"),
    ("Role", "role,omitempty", "role"),
    ("RoleName", "rolename,omitempty", "role_name"),
    ("StateOrProvince", "stateOrProvince", "state_or_province"),
    ("TenantID", "tentantId", "tenant_id"),
    ("Token", "token", "token"),
    ("UID", "uid,omitempty", "uid"),
    ("Username", "username,omitempty", "username") ]

/-- The name part of a `json` tag: the text before the first comma. -/
def jsonName (tag : String) : String :=
  String.mk (tag.data.takeWhile fun c => c ≠ ',')

/-- The external (JSON) names of the fields of `UserNullable`, in the order of the struct. -/
def UserNullable.jsonNames : List String :=
  UserNullable.tags.map fun tag => jsonName tag.2.1

/-- The external name under which `encoding/json` carries a Go field of `UserNullable`. -/
def UserNullable.jsonNameOf (field : String) : Option String :=
  (UserNullable.tags.find? fun tag => tag.1 = field).map fun tag => jsonName tag.2.1

end tc

/-! ## Test data and specification-side helpers -/

/-- The ambient of the unit tests: a toy e-mail check, no deny-list file. -/
def testAmbient : Ambient :=
  { IsEmail := fun s => s.data.any (fun c => c = '@'),
    invalidPasswords := none,
    uniqueMessage := fun table column => table ++ "." ++ column ++ " must be unique",
    existsMessage := fun table column => "no rows with value in " ++ table ++ "." ++ column }

/-- The first record of `getTestUsers` in `users_test.go`, restricted to what `Validate` reads. -/
def testUser0 : TOUser :=
  { Email := some "buckaroo@yoyodyne.bz", FullName := some "Buckaroo Bonzai", ID := some 0,
    LocalPasswd := some "letmein", Role := some 0, TenantID := some 1,
    Username := some "buckaroo" }

/-- The second record of `getTestUsers`. -/
def testUser1 : TOUser :=
  { testUser0 with Username := some "penny", Email := some "penny", Role := some 1 }

/-- The six keys of the literal in `TOUser.Validate`. -/
def TOUser.fieldKeys : List String :=
  ["email", "fullName", "localPasswd", "role", "username", "tenant"]

/-- The required fields that are absent (nil) in the record, by key, in the order of the
literal of `TOUser.Validate`. -/
def TOUser.absentFields (user : TOUser) : List String :=
  (if user.Email.isNone then ["email"] else [])
    ++ (if user.FullName.isNone then ["fullName"] else [])
    ++ (if user.LocalPasswd.isNone then ["localPasswd"] else [])
    ++ (if user.Role.isNone then ["role"] else [])
    ++ (if user.Username.isNone then ["username"] else [])
    ++ (if user.TenantID.isNone then ["tenant"] else [])

/-- A record whose credential is present, empty, and equal to its own username. -/
def emptyCredentialUser : TOUser :=
  { LocalPasswd := some "", Username := some "" }

/-- A store in which another user (id 7) already has the e-mail "penny"; role 1 and tenant 1
exist. -/
def pennyStore : DB :=
  { tm_user := [{ ID := some 7, Username := some "lizardo", Email := some "penny" }],
    role := [1], tenant := [1] }

/-- A scripted driver in the manner of `sqlmock`: fixed answers, no state. -/
structure Script where
  beginErr : Option String := none
  query : Except StmtError (List (Except String ScannedRow)) := .ok []
  exec : Except StmtError (Except String Int) := .ok (.ok 1)
  commitErr : Option String := none
  rollbackErr : Option String := none

/-- The driver that answers from a script. -/
def Script.driver (script : Script) : Driver Unit where
  Beginx := fun db => (script.beginErr, db)
  NamedQuery := fun _ _ db => (script.query, db)
  NamedExec := fun _ _ db => (script.exec, db)
  Commit := fun db => (script.commitErr, db)
  Rollback := fun db => (script.rollbackErr, db)

/-- Test collaborators: a hash that prefixes the credential, and a translator that classifies
PostgreSQL's `unique_violation` (code 23505) as a conflict naming the constraint, and anything
else as a system error. -/
def testCollaborators : Collaborators where
  DerivePassword := fun plain => .ok ("SCRYPT:" ++ plain)
  ParsePQUniqueConstraintError := fun e =>
    if e.Code = "23505" then (e.Constraint ++ " already exists", .DataConflictError)
    else ("database error", .SystemError)

/-- A `pq.Error` for a violated unique constraint on the username. -/
def uniqueViolation : pq.Error :=
  { Code := "23505", Message := "duplicate key value violates unique constraint",
    Detail := "Key (username)=(buckaroo) already exists.", Constraint := "username" }

/-- A tenant collaborator for tests: tenant 1 is authorized, tenant 2 cannot be looked up, and
no other tenant is authorized. -/
def testTenantCheck (tenantID : Int) (_currentUser : String) (_db : Unit) :
    Bool × Option String :=
  if tenantID = 1 then (true, none)
  else if tenantID = 2 then (false, some "tenant lookup failed")
  else (false, none)

/-- A table with the two test records, with ids 0 and 1. -/
def testTable : List TOUser :=
  [testUser0, { testUser1 with ID := some 1 }]

/-- A record whose id, 99, matches no row of `testTable`. -/
def strangerUser : TOUser :=
  { testUser0 with ID := some 99, Username := some "stranger",
                   LocalPasswd := some "correct horse" }

/-- The verdict of `Create` and `Update` on a failed statement, as a property of the returned
pair: the error is not nil; the kind is `DataConflictError` for a pq error that the conflict
translator classifies so, the translator's kind for any other pq error, and `SystemError` for
an error that is not a pq error. -/
def FailureVerdict (collab : Collaborators) (err : StmtError)
    (result : Option (Option String × tc.ApiErrorType)) : Prop :=
  ∃ message kind, result = some (some message, kind) ∧
    (∀ e, err = .pqError e →
      (collab.ParsePQUniqueConstraintError e).2 = .DataConflictError →
        kind = .DataConflictError) ∧
    (∀ e, err = .pqError e →
      (collab.ParsePQUniqueConstraintError e).2 ≠ .DataConflictError →
        kind = (collab.ParsePQUniqueConstraintError e).2) ∧
    (∀ text, err = .other text → kind = .SystemError)

/-- The verdict of an operation on the number `n` of rows of a successful statement, as a
property of its outcome, given the database state `db2` after the statement and the kind
`onZero` for `n = 0`: for `n = 0` an error of kind `onZero` and no `Commit`; for `n = 1` a call
of `Commit` on `db2`, success when it succeeds and its error with kind `SystemError` when it
fails; for `n > 1` an error of kind `SystemError` and no `Commit`. -/
def RowCountVerdict {σ : Type} (drv : Driver σ) (db2 : σ) (n : Nat)
    (onZero : tc.ApiErrorType) (out : Outcome σ) : Prop :=
  (n = 0 → (∃ message, out.result = some (some message, onZero)) ∧ Call.Commit ∉ out.calls) ∧
  (n = 1 → Call.Commit ∈ out.calls ∧
    out.result = (match (drv.Commit db2).1 with
      | none => some (none, .NoError)
      | some err => some (some err, .SystemError))) ∧
  (n > 1 → (∃ message, out.result = some (some message, .SystemError)) ∧
    Call.Commit ∉ out.calls)

/-- The outcome of a `Commit` or a `Rollback` on the transaction. -/
inductive TxEvent where
  | commit (err : Option String)
  | rollback (err : Option String)
deriving DecidableEq, Repr

/-- A driver that also records, next to its state, the outcome of every `Commit` and
`Rollback`, in order. Its answers are those of the driver it wraps. -/
def Driver.traced {σ : Type} (drv : Driver σ) : Driver (σ × List TxEvent) where
  Beginx := fun s => ((drv.Beginx s.1).1, ((drv.Beginx s.1).2, s.2))
  NamedQuery := fun query arg s =>
    ((drv.NamedQuery query arg s.1).1, ((drv.NamedQuery query arg s.1).2, s.2))
  NamedExec := fun query arg s =>
    ((drv.NamedExec query arg s.1).1, ((drv.NamedExec query arg s.1).2, s.2))
  Commit := fun s => ((drv.Commit s.1).1, ((drv.Commit s.1).2, s.2 ++ [.commit (drv.Commit s.1).1]))
  Rollback := fun s =>
    ((drv.Rollback s.1).1, ((drv.Rollback s.1).2, s.2 ++ [.rollback (drv.Rollback s.1).1]))

/-- The transaction discipline of an operation run on a traced driver, as a property of its
outcome. When the transaction was opened: the operation returns `(nil, NoError)` exactly when a
`Commit` was made and succeeded; on every other exit a `Rollback` was made; and after a
successful `Commit` there is no `Rollback`. When it could not be opened: nothing was committed
or rolled back. -/
def TxDiscipline {σ : Type} (opened : Bool) (out : Outcome (σ × List TxEvent)) : Prop :=
  if opened then
    (out.result = some (none, .NoError) ↔ TxEvent.commit none ∈ out.db.2) ∧
    (out.result ≠ some (none, .NoError) → ∃ err, TxEvent.rollback err ∈ out.db.2) ∧
    (TxEvent.commit none ∈ out.db.2 → ∀ err, TxEvent.rollback err ∉ out.db.2)
  else
    out.db.2 = []

/-- Lowering of the ASCII letters, as `strings.ToLower` does on ASCII text. -/
def asciiToLower (s : String) : String :=
  String.mk (s.data.map Char.toLower)

/-- The 24 external names that the wire shape lists for the user record. -/
def wireNames : List String :=
  ["active", "addressLine1", "addressLine2", "city", "company", "country", "email",
   "fullName", "gid", "id", "lastUpdated", "localPasswd", "newUser", "phoneNumber",
   "postalCode", "publicSshKey", "registrationSent", "role", "rolename", "stateOrProvince",
   "tenantId", "token", "uid", "username"]

/-- A script in which the statement returns the row (id 42, last_updated 1000) and the commit
fails. -/
def commitFailsScript : Script :=
  { query := .ok [.ok { id := 42, last_updated := ⟨1000, true⟩ }],
    commitErr := some "commit failed" }

/-- A script in which the statement returns two rows. -/
def twoRowsScript : Script :=
  { query := .ok [.ok { id := 42, last_updated := ⟨1000, true⟩ },
                  .ok { id := 43, last_updated := ⟨2000, true⟩ }] }

/-- A deny-list file whose first line has twice `bufio.MaxScanTokenSize` bytes (131072 letters
x) and whose second line is "password1". -/
def overlongDenyList : String :=
  String.mk (List.replicate (2 * bufio.MaxScanTokenSize) 'x') ++ "\npassword1\n"

/-- The timestamp that the scan loop of `Update` leaves in `lastUpdated` after rows that all
scanned: the last row's `last_updated`, or the zero timestamp when there was no row. -/
def lastScanned (rows : List ScannedRow) : tc.TimeNoMod :=
  (rows.getLast?.map fun row => row.last_updated).getD {}

/-! ## Theorems -/

/-- `TestValidate`, first case: a record with only the username set. -/
theorem TestValidate_only_username :
    TOUser.Validate { Username := some "validuser" } testAmbient none
      = ["'email' cannot be blank", "'fullName' cannot be blank",
         "'localPasswd' cannot be blank", "'role' cannot be blank",
         "'tenant' cannot be blank"] := by
  decide

/-- `TestValidate`, second case. -/
theorem TestValidate_user0 :
    TOUser.Validate testUser0 testAmbient none
      = ["'localPasswd' password is too common", "'role' cannot be blank"] := by
  decide

/-- `TestValidate`, third case. -/
theorem TestValidate_user1 :
    TOUser.Validate testUser1 testAmbient none
      = ["'email' must be a valid email address", "'localPasswd' password is too common"] := by
  decide

/-! ### Helper lemmas -/

theorem utf8ByteSize_go_pos (c : Char) (cs : List Char) :
    0 < String.utf8ByteSize.go (c :: cs) := by
  have := Char.utf8Size_pos c
  simp only [String.utf8ByteSize.go]
  omega

theorem utf8ByteSize_eq_zero_iff (s : String) : s.utf8ByteSize = 0 ↔ s = "" := by
  constructor
  · intro h
    cases s with
    | mk data =>
      cases data with
      | nil => rfl
      | cons c cs =>
        have := utf8ByteSize_go_pos c cs
        simp only [String.utf8ByteSize] at h
        omega
  · intro h
    subst h
    rfl

theorem IsEmpty_strPtr (s : String) : validation.IsEmpty (.strPtr s) = decide (s = "") := by
  by_cases h : s = ""
  · subst h
    rfl
  · have hne : s.utf8ByteSize ≠ 0 := fun h0 => h ((utf8ByteSize_eq_zero_iff s).mp h0)
    simp [validation.IsEmpty, h, hne]

theorem Validate_eq_none_iff (value : validation.Value) (rules : List validation.Rule) :
    validation.Validate value rules = none ↔ ∀ rule ∈ rules, rule value = none := by
  induction rules with
  | nil => simp [validation.Validate]
  | cons rule rules ih =>
    cases h : rule value with
    | none => simp [validation.Validate, h, ih]
    | some err => simp [validation.Validate, h]

theorem Validate_eq_some_iff (value : validation.Value) (rules : List validation.Rule)
    (err : String) :
    validation.Validate value rules = some err ↔
      ∃ passed rule rest, rules = passed ++ rule :: rest ∧
        (∀ r ∈ passed, r value = none) ∧ rule value = some err := by
  induction rules with
  | nil => simp [validation.Validate]
  | cons rule rules ih =>
    cases h : rule value with
    | none =>
      simp only [validation.Validate, h, ih]
      constructor
      · rintro ⟨passed, r, rest, hr, hp, he⟩
        exact ⟨rule :: passed, r, rest, by simp [hr], by
          intro r' hr'
          rcases List.mem_cons.mp hr' with h1 | h1
          · rw [h1]; exact h
          · exact hp r' h1, he⟩
      · rintro ⟨passed, r, rest, hr, hp, he⟩
        cases passed with
        | nil =>
          simp only [List.nil_append, List.cons.injEq] at hr
          rw [← hr.1, h] at he
          cases he
        | cons p passed =>
          simp only [List.cons_append, List.cons.injEq] at hr
          exact ⟨passed, r, rest, hr.2, fun r' hr' => hp r' (List.mem_cons_of_mem _ hr'), he⟩
    | some e =>
      simp only [validation.Validate, h, Option.some.injEq]
      constructor
      · intro he
        exact ⟨[], rule, rules, rfl, by simp, by rw [h, he]⟩
      · rintro ⟨passed, r, rest, hr, hp, he⟩
        cases passed with
        | nil =>
          simp only [List.nil_append, List.cons.injEq] at hr
          rw [← hr.1, h] at he
          exact Option.some.inj he
        | cons p passed =>
          simp only [List.cons_append, List.cons.injEq] at hr
          have := hp p (List.mem_cons_self _ _)
          rw [← hr.1, h] at this
          cases this

theorem mem_ToErrors_iff (errs : List (String × Option String)) (e : String) :
    e ∈ tovalidate.ToErrors errs ↔
      ∃ key message, (key, some message) ∈ errs ∧ e = tovalidate.fieldError key message := by
  induction errs with
  | nil => simp [tovalidate.ToErrors]
  | cons entry errs ih =>
    obtain ⟨key, value⟩ := entry
    cases value with
    | none =>
      simp only [tovalidate.ToErrors, ih, List.mem_cons, Prod.mk.injEq]
      constructor
      · rintro ⟨k, m, hm, he⟩
        exact ⟨k, m, Or.inr hm, he⟩
      · rintro ⟨k, m, hm | hm, he⟩
        · simp at hm
        · exact ⟨k, m, hm, he⟩
    | some v =>
      simp only [tovalidate.ToErrors, ih, List.mem_cons, Prod.mk.injEq]
      constructor
      · rintro (he | ⟨k, m, hm, he⟩)
        · exact ⟨key, v, Or.inl ⟨rfl, rfl⟩, he⟩
        · exact ⟨k, m, Or.inr hm, he⟩
      · rintro ⟨k, m, hm | hm, he⟩
        · obtain ⟨h1, h2⟩ := hm
          simp only [Option.some.injEq] at h2
          subst h1 h2
          exact Or.inl he
        · exact Or.inr ⟨k, m, hm, he⟩

theorem fieldError_inj (k₁ k₂ m₁ m₂ : String) (h₁ : k₁ ∈ TOUser.fieldKeys)
    (h₂ : k₂ ∈ TOUser.fieldKeys)
    (h : tovalidate.fieldError k₁ m₁ = tovalidate.fieldError k₂ m₂) : k₁ = k₂ ∧ m₁ = m₂ := by
  simp only [TOUser.fieldKeys, List.mem_cons, List.mem_singleton, List.not_mem_nil,
    or_false] at h₁ h₂
  have hd := congrArg String.data h
  simp only [tovalidate.fieldError, String.data_append] at hd
  rcases h₁ with rfl | rfl | rfl | rfl | rfl | rfl <;>
    rcases h₂ with rfl | rfl | rfl | rfl | rfl | rfl <;>
    simp [String.ext_iff] at hd ⊢ <;> exact hd

theorem mem_Validate_of_entry (user : TOUser) (amb : Ambient) (db : Option DB)
    (key : String) (value : validation.Value) (rules : List validation.Rule) (message : String)
    (hentry : (key, value, rules) ∈ TOUser.fieldRules user amb db)
    (herr : validation.Validate value rules = some message) :
    tovalidate.fieldError key message ∈ TOUser.Validate user amb db := by
  rw [TOUser.Validate, mem_ToErrors_iff]
  refine ⟨key, message, ?_, rfl⟩
  rw [TOUser.validationErrors, List.mem_map]
  exact ⟨(key, value, rules), hentry, by simp [herr]⟩

theorem Validate_nilPtr_required (rules : List validation.Rule) :
    validation.Validate .nilPtr (validation.Required :: rules) = some "cannot be blank" := rfl

theorem Validate_ofString_entry (field : Option String) (rules : List validation.Rule)
    (h : validation.Value.ofString field ≠ .nilPtr →
      ∀ rule ∈ validation.Required :: rules, rule (validation.Value.ofString field) = none) :
    validation.Validate (.ofString field) (validation.Required :: rules)
      = if field.isNone then some "cannot be blank" else none := by
  cases field with
  | none => rfl
  | some s =>
    simp only [Option.isNone_some, Bool.false_eq_true, if_false]
    exact (Validate_eq_none_iff _ _).mpr (h (by simp [validation.Value.ofString]))

theorem Validate_ofInt_entry (field : Option Int) (rules : List validation.Rule)
    (h : validation.Value.ofInt field ≠ .nilPtr →
      ∀ rule ∈ validation.Required :: rules, rule (validation.Value.ofInt field) = none) :
    validation.Validate (.ofInt field) (validation.Required :: rules)
      = if field.isNone then some "cannot be blank" else none := by
  cases field with
  | none => rfl
  | some s =>
    simp only [Option.isNone_some, Bool.false_eq_true, if_false]
    exact (Validate_eq_none_iff _ _).mpr (h (by simp [validation.Value.ofInt]))

/-! ### C1 -/

/-- C1: for each of the six required fields (email, fullName, localPasswd, role, username,
tenant), when the field is absent `TOUser.Validate` returns "'<field>' cannot be blank"; and
when every present field is accepted by each of its own rules, the returned errors are exactly
one "cannot be blank" error per absent field and nothing else. -/
theorem C1_validate_absent_fields (user : TOUser) (amb : Ambient) (db : Option DB) :
    (user.Email = none → "'email' cannot be blank" ∈ TOUser.Validate user amb db) ∧
    (user.FullName = none → "'fullName' cannot be blank" ∈ TOUser.Validate user amb db) ∧
    (user.LocalPasswd = none →
      "'localPasswd' cannot be blank" ∈ TOUser.Validate user amb db) ∧
    (user.Role = none → "'role' cannot be blank" ∈ TOUser.Validate user amb db) ∧
    (user.Username = none → "'username' cannot be blank" ∈ TOUser.Validate user amb db) ∧
    (user.TenantID = none → "'tenant' cannot be blank" ∈ TOUser.Validate user amb db) ∧
    ((∀ entry ∈ TOUser.fieldRules user amb db, entry.2.1 ≠ .nilPtr →
        ∀ rule ∈ entry.2.2, rule entry.2.1 = none) →
      TOUser.Validate user amb db
        = (TOUser.absentFields user).map fun key => tovalidate.fieldError key "cannot be blank")
    := by
  refine ⟨?_, ?_, ?_, ?_, ?_, ?_, ?_⟩
  · intro h
    exact mem_Validate_of_entry user amb db "email" (.ofString user.Email) (TOUser.emailRules user amb db) "cannot be blank"
      (by simp [TOUser.fieldRules]) (by rw [h]; rfl)
  · intro h
    exact mem_Validate_of_entry user amb db "fullName" (.ofString user.FullName)
      TOUser.fullNameRules "cannot be blank" (by simp [TOUser.fieldRules]) (by rw [h]; rfl)
  · intro h
    exact mem_Validate_of_entry user amb db "localPasswd" (.ofString user.LocalPasswd)
      (TOUser.localPasswdRules user amb) "cannot be blank" (by simp [TOUser.fieldRules]) (by rw [h]; rfl)
  · intro h
    exact mem_Validate_of_entry user amb db "role" (.ofInt user.Role) (TOUser.roleRules amb db)
      "cannot be blank"
      (by simp [TOUser.fieldRules]) (by rw [h]; rfl)
  · intro h
    exact mem_Validate_of_entry user amb db "username" (.ofString user.Username)
      (TOUser.usernameRules user amb db) "cannot be blank" (by simp [TOUser.fieldRules]) (by rw [h]; rfl)
  · intro h
    exact mem_Validate_of_entry user amb db "tenant" (.ofInt user.TenantID) (TOUser.tenantRules amb db)
      "cannot be blank"
      (by simp [TOUser.fieldRules]) (by rw [h]; rfl)
  · intro h
    have h1 := Validate_ofString_entry user.Email _
      (h ("email", .ofString user.Email, TOUser.emailRules user amb db) (by simp [TOUser.fieldRules]))
    have h2 := Validate_ofString_entry user.FullName _
      (h ("fullName", .ofString user.FullName, TOUser.fullNameRules) (by simp [TOUser.fieldRules]))
    have h3 := Validate_ofString_entry user.LocalPasswd _
      (h ("localPasswd", .ofString user.LocalPasswd, TOUser.localPasswdRules user amb) (by simp [TOUser.fieldRules]))
    have h4 := Validate_ofInt_entry user.Role _
      (h ("role", .ofInt user.Role, TOUser.roleRules amb db) (by simp [TOUser.fieldRules]))
    have h5 := Validate_ofString_entry user.Username _
      (h ("username", .ofString user.Username, TOUser.usernameRules user amb db) (by simp [TOUser.fieldRules]))
    have h6 := Validate_ofInt_entry user.TenantID _
      (h ("tenant", .ofInt user.TenantID, TOUser.tenantRules amb db) (by simp [TOUser.fieldRules]))
    simp only [TOUser.Validate, TOUser.validationErrors, TOUser.fieldRules, List.map,
      TOUser.emailRules, TOUser.fullNameRules, TOUser.localPasswdRules, TOUser.roleRules,
      TOUser.usernameRules, TOUser.tenantRules, h1, h2, h3, h4, h5, h6, TOUser.absentFields]
    cases user.Email <;> cases user.FullName <;> cases user.LocalPasswd <;> cases user.Role <;>
      cases user.Username <;> cases user.TenantID <;> rfl

/-- C1 at the record of `TestValidate` with only the username set: the five expected errors. -/
theorem C1_validate_absent_fields_witness :
    TOUser.Validate { Username := some "validuser" } testAmbient none
      = ["'email' cannot be blank", "'fullName' cannot be blank",
         "'localPasswd' cannot be blank", "'role' cannot be blank",
         "'tenant' cannot be blank"] :=
  (C1_validate_absent_fields { Username := some "validuser" } testAmbient none).2.2.2.2.2.2
    (by decide)

/-! ### C2 and C3: the password rule -/

theorem notInBadPasswords_eq_true_iff (newPassword : String) (words : List (Option String)) :
    tovalidate.notInBadPasswords newPassword words = true ↔ some newPassword ∉ words := by
  induction words with
  | nil => simp [tovalidate.notInBadPasswords]
  | cons word words ih =>
    cases word with
    | none => simp [tovalidate.notInBadPasswords, ih]
    | some pw =>
      by_cases h : pw = newPassword
      · simp [tovalidate.notInBadPasswords, h]
      · have h' : ¬ newPassword = pw := fun e => h e.symm
        simp [tovalidate.notInBadPasswords, h, h', ih]

theorem notInFile_eq_true_iff (newPassword : String) (lines : List String) :
    tovalidate.notInFile newPassword lines = true ↔ newPassword ∉ lines := by
  induction lines with
  | nil => simp [tovalidate.notInFile]
  | cons line lines ih =>
    by_cases h : newPassword = line
    · simp [tovalidate.notInFile, h]
    · simp [tovalidate.notInFile, h, ih]

theorem IsGoodPassword_eq_false_of_mem (words : List (Option String))
    (file : Option String) (p : String) (h : some p ∈ words) :
    tovalidate.IsGoodPassword words file p = false := by
  have hbad : tovalidate.notInBadPasswords p words = false := by
    cases hb : tovalidate.notInBadPasswords p words with
    | false => rfl
    | true => exact absurd h ((notInBadPasswords_eq_true_iff p words).mp hb)
  unfold tovalidate.IsGoodPassword
  by_cases hlen : p.utf8ByteSize < 8
  · simp [hlen]
  · simp [hlen, hbad]

/-- C2 fails for the empty credential: a record whose localPasswd is present, empty and equal
to its own username gets "'localPasswd' cannot be blank", and "password is too common" is not
among the returned errors. -/
theorem C2_counterexample_empty_credential :
    emptyCredentialUser.LocalPasswd = some "" ∧
    emptyCredentialUser.Username = some "" ∧
    TOUser.Validate emptyCredentialUser testAmbient none
      = ["'email' cannot be blank", "'fullName' cannot be blank",
         "'localPasswd' cannot be blank", "'role' cannot be blank",
         "'username' cannot be blank", "'tenant' cannot be blank"] ∧
    "'localPasswd' password is too common"
      ∉ TOUser.Validate emptyCredentialUser testAmbient none := by
  decide

/-- C2 (amended): for every record whose localPasswd is present, not empty, and equal to its own
username or its own email, `TOUser.Validate` returns "'localPasswd' password is too common",
whatever the length of the credential. -/
theorem C2_validate_self_password (user : TOUser) (amb : Ambient) (db : Option DB)
    (p : String) (hp : user.LocalPasswd = some p) (hne : p ≠ "")
    (hself : user.Username = some p ∨ user.Email = some p) :
    "'localPasswd' password is too common" ∈ TOUser.Validate user amb db := by
  have hmem : some p ∈ [user.Username, user.Email] := by
    rcases hself with h | h <;> simp [h]
  have hbad := IsGoodPassword_eq_false_of_mem [user.Username, user.Email]
    amb.invalidPasswords p hmem
  have hempty : validation.IsEmpty (.strPtr p) = false := by
    rw [IsEmpty_strPtr]
    simp [hne]
  refine mem_Validate_of_entry user amb db "localPasswd" (.ofString user.LocalPasswd)
    (TOUser.localPasswdRules user amb) "password is too common"
    (by simp [TOUser.fieldRules]) ?_
  rw [hp]
  simp [TOUser.localPasswdRules, validation.Validate, validation.Required,
    validation.Value.ofString, validation.isNil, hempty, TOUser.isGoodPassword,
    validation.NewStringRule, hbad]

/-- C2 (amended) at a short and at a long credential equal to the username. -/
theorem C2_validate_self_password_witness :
    "'localPasswd' password is too common"
        ∈ TOUser.Validate { LocalPasswd := some "penny", Username := some "penny" }
            testAmbient none ∧
    "'localPasswd' password is too common"
        ∈ TOUser.Validate { LocalPasswd := some "buckaroo@yoyodyne.bz",
                            Email := some "buckaroo@yoyodyne.bz" } testAmbient none :=
  ⟨C2_validate_self_password _ testAmbient none "penny" rfl (by decide) (Or.inl rfl),
   C2_validate_self_password _ testAmbient none "buckaroo@yoyodyne.bz" rfl (by decide)
     (Or.inr rfl)⟩

theorem IsGoodPassword_eq_true_iff (words : List (Option String))
    (file : Option String) (p : String) :
    tovalidate.IsGoodPassword words file p = true ↔
      8 ≤ p.utf8ByteSize ∧ (∀ w, some w ∈ words → w ≠ p) ∧
        (∀ content, file = some content → ∀ token ∈ bufio.scanLines content, token ≠ p) := by
  have hwords : (∀ w, some w ∈ words → w ≠ p) ↔ some p ∉ words := by
    constructor
    · intro h hmem
      exact h p hmem rfl
    · intro h w hw hwp
      exact h (hwp ▸ hw)
  have hlines : ∀ tokens : List String, (∀ token ∈ tokens, token ≠ p) ↔ p ∉ tokens := by
    intro tokens
    constructor
    · intro h hmem
      exact h p hmem rfl
    · intro h token hl hlp
      exact h (hlp ▸ hl)
  rw [hwords]
  unfold tovalidate.IsGoodPassword
  by_cases hlen : p.utf8ByteSize < 8
  · simp only [hlen, if_true]
    constructor
    · intro h
      cases h
    · intro h
      omega
  · have hlen' : 8 ≤ p.utf8ByteSize := Nat.le_of_not_lt hlen
    simp only [hlen, if_false]
    cases hb : tovalidate.notInBadPasswords p words with
    | false =>
      have : ¬ some p ∉ words := by
        intro hn
        rw [(notInBadPasswords_eq_true_iff p words).mpr hn] at hb
        cases hb
      simp [this]
    | true =>
      have hw := (notInBadPasswords_eq_true_iff p words).mp hb
      cases file with
      | none => simp [hlen', hw]
      | some content =>
        simp only [Bool.not_true, Bool.false_eq_true, if_false, notInFile_eq_true_iff,
          hlen', hw, not_false_eq_true, true_and, Option.some.injEq]
        constructor
        · intro h c hc
          subst hc
          exact (hlines _).mpr h
        · intro h
          exact (hlines _).mp (h content rfl)

theorem lines_append_newline (line rest : List Char) (h : '\n' ∉ line) :
    bufio.lines (line ++ '\n' :: rest) = line :: bufio.lines rest := by
  induction line with
  | nil => simp [bufio.lines]
  | cons c line ih =>
    have hc : c ≠ '\n' := fun e => h (e ▸ List.mem_cons_self _ _)
    have hline : '\n' ∉ line := fun m => h (List.mem_cons_of_mem _ m)
    have e := ih hline
    simp only [List.cons_append, bufio.lines, hc, if_false, List.append_eq, e]

theorem byteLen_replicate (n : Nat) : bufio.byteLen (List.replicate n 'x') = n := by
  induction n with
  | zero => rfl
  | succ n ih =>
    have hx : Char.utf8Size 'x' = 1 := by decide
    simp only [bufio.byteLen, String.utf8ByteSize, List.replicate_succ,
      String.utf8ByteSize.go, hx] at ih ⊢
    omega

theorem scanLines_of_long_first_line (line rest : List Char) (h : '\n' ∉ line)
    (hlong : ¬ bufio.byteLen line < bufio.MaxScanTokenSize) :
    bufio.scanLines (String.mk (line ++ '\n' :: rest)) = [] := by
  simp only [bufio.scanLines, lines_append_newline line rest h, List.takeWhile_cons, hlong,
    decide_False, Bool.false_eq_true, if_false, List.map_nil]

theorem scanLines_of_short_lines (content : String)
    (h : ∀ line ∈ bufio.lines content.data, bufio.byteLen line < bufio.MaxScanTokenSize) :
    bufio.scanLines content
      = (bufio.lines content.data).map fun line => String.mk (bufio.dropCR line) := by
  have htake : (bufio.lines content.data).takeWhile
      (fun line => decide (bufio.byteLen line < bufio.MaxScanTokenSize))
      = bufio.lines content.data := by
    rw [List.takeWhile_eq_self_iff]
    intro line hline
    simp [h line hline]
  simp only [bufio.scanLines, htake]

/-- C3 fails after an over-long line: in a deny-list file whose first line has 131072 bytes,
twice `bufio.MaxScanTokenSize`, and whose second line is "password1", the string "password1" has
at least 8 bytes, equals a line of the file, and is accepted by `IsGoodPassword`. -/
theorem C3_counterexample_long_line :
    8 ≤ "password1".utf8ByteSize ∧
    bufio.lines overlongDenyList.data
      = [List.replicate (2 * bufio.MaxScanTokenSize) 'x', "password1".data] ∧
    "password1".data ∈ bufio.lines overlongDenyList.data ∧
    tovalidate.IsGoodPassword [] (some overlongDenyList) "password1" = true := by
  have hx : '\n' ∉ List.replicate (2 * bufio.MaxScanTokenSize) 'x' := by
    intro hmem
    have := (List.mem_replicate.mp hmem).2
    exact absurd this (by decide)
  have hlong : ¬ bufio.byteLen (List.replicate (2 * bufio.MaxScanTokenSize) 'x')
      < bufio.MaxScanTokenSize := by
    rw [byteLen_replicate]
    omega
  have hdata : overlongDenyList
      = String.mk (List.replicate (2 * bufio.MaxScanTokenSize) 'x'
          ++ '\n' :: "password1\n".data) :=
    rfl
  have hlines : bufio.lines overlongDenyList.data
      = [List.replicate (2 * bufio.MaxScanTokenSize) 'x', "password1".data] := by
    rw [hdata]
    simp only [lines_append_newline _ _ hx]
    have : bufio.lines "password1\n".data = ["password1".data] := by decide
    rw [this]
  refine ⟨by decide, hlines, ?_, ?_⟩
  · rw [hlines]
    simp
  · have hscan : bufio.scanLines overlongDenyList = [] := by
      rw [hdata]
      exact scanLines_of_long_first_line _ _ hx hlong
    refine (IsGoodPassword_eq_true_iff [] (some overlongDenyList) "password1").mpr
      ⟨by decide, ?_, ?_⟩
    · intro w hw
      cases hw
    · intro content hcontent token htoken
      cases hcontent
      rw [hscan] at htoken
      cases htoken

/-- C3 (amended): `IsGoodPassword(words...)(p)` is true exactly when `p` has at least 8 bytes,
differs from every non-nil context word, and differs from every line of the deny-list file that
comes before the first line of `bufio.MaxScanTokenSize` (65536) bytes or more, a line being
compared without its final carriage return; an unreadable file (`none`) counts as an empty
deny-list. So every `p` shorter than 8 bytes is rejected, and when every line of the file is
shorter than 65536 bytes, `p` is accepted exactly when it has at least 8 bytes and differs from
every context word and from every line of the file. -/
theorem C3_IsGoodPassword_iff (words : List (Option String)) (file : Option String)
    (p : String) :
    (tovalidate.IsGoodPassword words file p = true ↔
      8 ≤ p.utf8ByteSize ∧ (∀ w, some w ∈ words → w ≠ p) ∧
        (∀ content, file = some content →
          ∀ line ∈ (bufio.lines content.data).takeWhile
              (fun line => bufio.byteLen line < bufio.MaxScanTokenSize),
            String.mk (bufio.dropCR line) ≠ p)) ∧
    (p.utf8ByteSize < 8 → tovalidate.IsGoodPassword words file p = false) ∧
    (file = none →
      (tovalidate.IsGoodPassword words file p = true ↔
        8 ≤ p.utf8ByteSize ∧ (∀ w, some w ∈ words → w ≠ p))) ∧
    (∀ content, file = some content →
      (∀ line ∈ bufio.lines content.data, bufio.byteLen line < bufio.MaxScanTokenSize) →
      (tovalidate.IsGoodPassword words file p = true ↔
        8 ≤ p.utf8ByteSize ∧ (∀ w, some w ∈ words → w ≠ p) ∧
          (∀ line ∈ bufio.lines content.data, String.mk (bufio.dropCR line) ≠ p))) := by
  have hiff := IsGoodPassword_eq_true_iff words file p
  refine ⟨?_, ?_, ?_, ?_⟩
  · rw [hiff]
    simp only [bufio.scanLines, List.mem_map, forall_exists_index, and_imp,
      forall_apply_eq_imp_iff₂]
  · intro hlen
    cases h : tovalidate.IsGoodPassword words file p with
    | false => rfl
    | true =>
      have := (hiff.mp h).1
      omega
  · intro hnone
    rw [hiff, hnone]
    simp
  · intro content hfile hshort
    rw [hiff, hfile]
    simp only [Option.some.injEq, forall_eq', scanLines_of_short_lines content hshort,
      List.mem_map, forall_exists_index, and_imp, forall_apply_eq_imp_iff₂]

/-- C3 (amended) at the credential "letmein" of the test records, 7 bytes and rejected, and at
a deny-list file with a Windows line ending: "password1" is rejected, "password2" accepted. -/
theorem C3_IsGoodPassword_iff_witness :
    tovalidate.IsGoodPassword [some "buckaroo", some "buckaroo@yoyodyne.bz"] none "letmein"
      = false ∧
    tovalidate.IsGoodPassword [] (some "12345678\npassword1\r\nqwertyuiop") "password1"
      = false ∧
    (tovalidate.IsGoodPassword [] (some "12345678\npassword1\r\nqwertyuiop") "password2"
        = true ↔
      8 ≤ "password2".utf8ByteSize ∧ (∀ w, some w ∈ ([] : List (Option String)) → w ≠ "password2") ∧
        (∀ line ∈ bufio.lines "12345678\npassword1\r\nqwertyuiop".data,
          String.mk (bufio.dropCR line) ≠ "password2")) :=
  ⟨(C3_IsGoodPassword_iff [some "buckaroo", some "buckaroo@yoyodyne.bz"] none "letmein").2.1
      (by decide),
   by decide,
   (C3_IsGoodPassword_iff [] (some "12345678\npassword1\r\nqwertyuiop") "password2").2.2.2
      "12345678\npassword1\r\nqwertyuiop" rfl (by decide)⟩

/-! ### C4 and C5: one error per field -/

theorem fieldRules_key_mem (user : TOUser) (amb : Ambient) (db : Option DB)
    (entry : String × validation.Value × List validation.Rule)
    (h : entry ∈ TOUser.fieldRules user amb db) : entry.1 ∈ TOUser.fieldKeys := by
  simp only [TOUser.fieldRules, List.mem_cons, List.mem_singleton, List.not_mem_nil,
    or_false] at h
  rcases h with rfl | rfl | rfl | rfl | rfl | rfl <;> simp [TOUser.fieldKeys]

theorem fieldRules_key_inj (user : TOUser) (amb : Ambient) (db : Option DB)
    (e₁ e₂ : String × validation.Value × List validation.Rule)
    (h₁ : e₁ ∈ TOUser.fieldRules user amb db) (h₂ : e₂ ∈ TOUser.fieldRules user amb db)
    (hkey : e₁.1 = e₂.1) : e₁ = e₂ := by
  simp only [TOUser.fieldRules, List.mem_cons, List.mem_singleton, List.not_mem_nil,
    or_false] at h₁ h₂
  rcases h₁ with rfl | rfl | rfl | rfl | rfl | rfl <;>
    rcases h₂ with rfl | rfl | rfl | rfl | rfl | rfl <;>
    first
      | rfl
      | (simp only at hkey; exact absurd hkey (by decide))

theorem mem_Validate_iff_entry (user : TOUser) (amb : Ambient) (db : Option DB)
    (entry : String × validation.Value × List validation.Rule)
    (hentry : entry ∈ TOUser.fieldRules user amb db) (message : String) :
    tovalidate.fieldError entry.1 message ∈ TOUser.Validate user amb db ↔
      validation.Validate entry.2.1 entry.2.2 = some message := by
  constructor
  · intro h
    rw [TOUser.Validate, mem_ToErrors_iff] at h
    obtain ⟨key, m, hmem, heq⟩ := h
    rw [TOUser.validationErrors, List.mem_map] at hmem
    obtain ⟨entry', hentry', he⟩ := hmem
    simp only [Prod.mk.injEq] at he
    obtain ⟨hk, hv⟩ := he
    have hinj := fieldError_inj entry.1 key message m
      (fieldRules_key_mem user amb db entry hentry)
      (hk ▸ fieldRules_key_mem user amb db entry' hentry') heq
    have hsame := fieldRules_key_inj user amb db entry entry' hentry hentry'
      (hinj.1.trans hk.symm)
    rw [hsame, hv, hinj.2]
  · intro h
    exact mem_Validate_of_entry user amb db entry.1 entry.2.1 entry.2.2 message hentry h

/-- C4 fails: the e-mail "penny" of the second test record violates both the syntax rule and,
in a store where another user has that e-mail, the uniqueness rule; `TOUser.Validate` returns
the error of the syntax rule only. And the record with only the username set gets exactly one
error for its absent e-mail. -/
theorem C4_counterexample_fail_fast :
    is.Email testAmbient.IsEmail (.strPtr "penny") = some "must be a valid email address" ∧
    tovalidate.NewDBUniqueRule testAmbient (some pennyStore) "tm_user" "email"
        (TOUser.matchesID testUser1) (.strPtr "penny") = some "tm_user.email must be unique" ∧
    TOUser.Validate testUser1 testAmbient (some pennyStore)
      = ["'email' must be a valid email address", "'localPasswd' password is too common"] ∧
    TOUser.Validate { Username := some "validuser" } testAmbient none
      = ["'email' cannot be blank", "'fullName' cannot be blank",
         "'localPasswd' cannot be blank", "'role' cannot be blank",
         "'tenant' cannot be blank"] := by
  decide

/-- C4 (amended): `TOUser.Validate` is fail-fast within a field and validates every field: for
each of the six entries, an error with that field's tag is returned exactly when it is the error
of the first rule, in the order written, that the field's value violates; so every field
contributes at most one error, whatever the other fields do. -/
theorem C4_validate_first_failure (user : TOUser) (amb : Ambient) (db : Option DB)
    (entry : String × validation.Value × List validation.Rule)
    (hentry : entry ∈ TOUser.fieldRules user amb db) (message : String) :
    tovalidate.fieldError entry.1 message ∈ TOUser.Validate user amb db ↔
      ∃ passed rule rest, entry.2.2 = passed ++ rule :: rest ∧
        (∀ r ∈ passed, r entry.2.1 = none) ∧ rule entry.2.1 = some message := by
  rw [mem_Validate_iff_entry user amb db entry hentry message, Validate_eq_some_iff]

/-- C4 (amended) at the e-mail entry of the second test record in `pennyStore`: the syntax
error is returned exactly when the syntax rule is the first rule of the entry to fail. -/
theorem C4_validate_first_failure_witness :
    "'email' must be a valid email address"
        ∈ TOUser.Validate testUser1 testAmbient (some pennyStore) ↔
      ∃ passed rule rest,
        TOUser.emailRules testUser1 testAmbient (some pennyStore) = passed ++ rule :: rest ∧
        (∀ r ∈ passed, r (.strPtr "penny") = none) ∧
        rule (.strPtr "penny") = some "must be a valid email address" :=
  C4_validate_first_failure testUser1 testAmbient (some pennyStore)
    ("email", .ofString testUser1.Email, TOUser.emailRules testUser1 testAmbient (some pennyStore))
    (by simp [TOUser.fieldRules]) "must be a valid email address"

/-- C6: `IsTenantAuthorized` returns (false, no error) without asking the tenant collaborator
when the record is nil or its tenantId is absent, and otherwise returns exactly the pair the
collaborator gives for the record's tenantId and the acting user, asking it once; so it never
reports authorized for a record with no tenant and reports an error only when the collaborator
does. -/
theorem C6_IsTenantAuthorized {CurrentUser SqlDB : Type}
    (check : Int → CurrentUser → SqlDB → Bool × Option String)
    (currentUser : CurrentUser) (db : SqlDB) :
    TOUser.IsTenantAuthorized check none currentUser db = ((false, none), []) ∧
    (∀ u : TOUser, u.TenantID = none →
      TOUser.IsTenantAuthorized check (some u) currentUser db = ((false, none), [])) ∧
    (∀ (u : TOUser) (t : Int), u.TenantID = some t →
      TOUser.IsTenantAuthorized check (some u) currentUser db
        = (check t currentUser db, [t])) ∧
    (∀ user : Option TOUser,
      (TOUser.IsTenantAuthorized check user currentUser db).1.1 = true →
        ∃ u t, user = some u ∧ u.TenantID = some t ∧ (check t currentUser db).1 = true) ∧
    (∀ (user : Option TOUser) (err : String),
      (TOUser.IsTenantAuthorized check user currentUser db).1.2 = some err →
        ∃ u t, user = some u ∧ u.TenantID = some t ∧ (check t currentUser db).2 = some err)
    := by
  refine ⟨rfl, ?_, ?_, ?_, ?_⟩
  · intro u h
    simp [TOUser.IsTenantAuthorized, h]
  · intro u t h
    simp [TOUser.IsTenantAuthorized, h]
  · intro user h
    cases user with
    | none => simp [TOUser.IsTenantAuthorized] at h
    | some u =>
      cases ht : u.TenantID with
      | none => simp [TOUser.IsTenantAuthorized, ht] at h
      | some t =>
        simp only [TOUser.IsTenantAuthorized, ht] at h
        exact ⟨u, t, rfl, ht, h⟩
  · intro user err h
    cases user with
    | none => simp [TOUser.IsTenantAuthorized] at h
    | some u =>
      cases ht : u.TenantID with
      | none => simp [TOUser.IsTenantAuthorized, ht] at h
      | some t =>
        simp only [TOUser.IsTenantAuthorized, ht] at h
        exact ⟨u, t, rfl, ht, h⟩

/-- C6 at the first test record (tenant 1, authorized by the test collaborator) and at a record
without tenant. -/
theorem C6_IsTenantAuthorized_witness :
    TOUser.IsTenantAuthorized testTenantCheck (some testUser0) "admin" ()
      = ((true, none), [1]) ∧
    TOUser.IsTenantAuthorized testTenantCheck (some { Username := some "validuser" }) "admin" ()
      = ((false, none), []) :=
  ⟨(C6_IsTenantAuthorized testTenantCheck "admin" ()).2.2.1 testUser0 1 rfl,
   (C6_IsTenantAuthorized testTenantCheck "admin" ()).2.1 { Username := some "validuser" } rfl⟩

/-! ### C7 and C8: a failing statement -/

theorem Create_statement_error {σ : Type} (drv : Driver σ) (collab : Collaborators)
    (user : TOUser) (db db1 db2 : σ) (plain enc : String) (err : StmtError)
    (hbegin : drv.Beginx db = (none, db1)) (hpw : user.LocalPasswd = some plain)
    (hhash : collab.DerivePassword plain = .ok enc)
    (hstmt : drv.NamedQuery .insertQuery { user with LocalPasswd := some enc } db1
      = (.error err, db2)) :
    (TOUser.Create drv collab user db).result = some (TOUser.statementError collab err) := by
  simp [TOUser.Create, hbegin, hpw, hhash, hstmt, TOUser.finish]

theorem Update_statement_error {σ : Type} (drv : Driver σ) (collab : Collaborators)
    (user : TOUser) (db db1 db2 : σ) (plain enc : String) (err : StmtError)
    (hbegin : drv.Beginx db = (none, db1)) (hpw : user.LocalPasswd = some plain)
    (hhash : collab.DerivePassword plain = .ok enc)
    (hstmt : drv.NamedQuery .updateQuery { user with LocalPasswd := some enc } db1
      = (.error err, db2)) :
    (TOUser.Update drv collab user db).result = some (TOUser.statementError collab err) := by
  simp [TOUser.Update, hbegin, hpw, hhash, hstmt, TOUser.finish]

theorem Delete_statement_error {σ : Type} (drv : Driver σ) (user : TOUser) (db db1 db2 : σ)
    (err : StmtError) (hbegin : drv.Beginx db = (none, db1))
    (hstmt : drv.NamedExec .deactivateUserQuery user db1 = (.error err, db2)) :
    (TOUser.Delete drv user db).result = some (some err.Error, .SystemError) := by
  simp [TOUser.Delete, hbegin, hstmt, TOUser.finish]

theorem FailureVerdict_statementError (collab : Collaborators) (err : StmtError) :
    FailureVerdict collab err (some (TOUser.statementError collab err)) := by
  cases err with
  | pqError e =>
    by_cases hc : (collab.ParsePQUniqueConstraintError e).2 = .DataConflictError
    · refine ⟨"a user with " ++ (collab.ParsePQUniqueConstraintError e).1,
        .DataConflictError, ?_, ?_, ?_, ?_⟩
      · simp [TOUser.statementError, hc]
      · intro _ _ _
        rfl
      · intro e' he' hne
        cases he'
        exact absurd hc hne
      · intro text ht
        cases ht
    · refine ⟨(collab.ParsePQUniqueConstraintError e).1,
        (collab.ParsePQUniqueConstraintError e).2, ?_, ?_, ?_, ?_⟩
      · simp [TOUser.statementError, hc]
      · intro e' he' hc'
        cases he'
        exact hc'
      · intro e' he' _
        cases he'
        rfl
      · intro text ht
        cases ht
  | other text =>
    refine ⟨text, .SystemError, rfl, ?_, ?_, ?_⟩
    · intro e he
      cases he
    · intro e he
      cases he
    · intro _ _
      rfl

/-- C7 fails for `Delete`: the same unique-constraint violation that makes `Create` return
kind `DataConflictError` makes `Delete` return kind `SystemError`. -/
theorem C7_counterexample_delete_unique_violation :
    (testCollaborators.ParsePQUniqueConstraintError uniqueViolation).2
      = tc.ApiErrorType.DataConflictError ∧
    (TOUser.Create (Script.driver { query := .error (.pqError uniqueViolation) })
        testCollaborators testUser0 ()).result
      = some (some "a user with username already exists", .DataConflictError) ∧
    (TOUser.Delete (Script.driver { exec := .error (.pqError uniqueViolation) })
        testUser0 ()).result
      = some (some "pq: duplicate key value violates unique constraint", .SystemError) := by
  decide

/-- C7 (amended): when the statement fails after the transaction was opened (and, in `Create`
and `Update`, the credential was hashed), `Create` and `Update` return a non-nil error whose
kind is `DataConflictError` for a pq error that the conflict translator classifies as a
unique-constraint violation, the translator's kind for any other pq error, and `SystemError`
for an error that is not a pq error; `Delete` returns a non-nil error of kind `SystemError` for
every statement failure. -/
theorem C7_statement_failure_kind {σ : Type} (drv : Driver σ) (collab : Collaborators)
    (user : TOUser) (db db1 db2 : σ) (err : StmtError)
    (hbegin : drv.Beginx db = (none, db1)) :
    (∀ plain enc, user.LocalPasswd = some plain → collab.DerivePassword plain = .ok enc →
      drv.NamedQuery .insertQuery { user with LocalPasswd := some enc } db1 = (.error err, db2) →
      FailureVerdict collab err (TOUser.Create drv collab user db).result) ∧
    (∀ plain enc, user.LocalPasswd = some plain → collab.DerivePassword plain = .ok enc →
      drv.NamedQuery .updateQuery { user with LocalPasswd := some enc } db1 = (.error err, db2) →
      FailureVerdict collab err (TOUser.Update drv collab user db).result) ∧
    (drv.NamedExec .deactivateUserQuery user db1 = (.error err, db2) →
      ∃ message, (TOUser.Delete drv user db).result = some (some message, .SystemError)) := by
  refine ⟨?_, ?_, ?_⟩
  · intro plain enc hpw hhash hstmt
    rw [Create_statement_error drv collab user db db1 db2 plain enc err hbegin hpw hhash hstmt]
    exact FailureVerdict_statementError collab err
  · intro plain enc hpw hhash hstmt
    rw [Update_statement_error drv collab user db db1 db2 plain enc err hbegin hpw hhash hstmt]
    exact FailureVerdict_statementError collab err
  · intro hstmt
    exact ⟨err.Error, Delete_statement_error drv user db db1 db2 err hbegin hstmt⟩

/-- C7 (amended) at a scripted `Update` whose statement fails with an error that is not a pq
error, and at a scripted `Delete` whose statement fails with a unique-constraint violation. -/
theorem C7_statement_failure_kind_witness :
    FailureVerdict testCollaborators (.other "connection reset")
      (TOUser.Update (Script.driver { query := .error (.other "connection reset") })
          testCollaborators testUser0 ()).result ∧
    (∃ message,
      (TOUser.Delete (Script.driver { exec := .error (.pqError uniqueViolation) })
          testUser0 ()).result = some (some message, .SystemError)) :=
  ⟨(C7_statement_failure_kind
      (Script.driver { query := .error (.other "connection reset") })
      testCollaborators testUser0 () () () (.other "connection reset") rfl).2.1
      "letmein" "SCRYPT:letmein" rfl rfl rfl,
   (C7_statement_failure_kind
      (Script.driver { exec := .error (.pqError uniqueViolation) })
      testCollaborators testUser0 () () () (.pqError uniqueViolation) rfl).2.2 rfl⟩

/-- C8: in `Create` and in `Update`, when the statement fails with a pq error and the conflict
translator classifies it as `DataConflictError` with message `m`, the operation returns kind
`DataConflictError` with the message "a user with " followed by `m`; when the translator
returns any other kind, the operation returns the translator's error and kind unchanged. -/
theorem C8_conflict_message {σ : Type} (drv : Driver σ) (collab : Collaborators)
    (user : TOUser) (db db1 db2 : σ) (plain enc : String) (pqErr : pq.Error)
    (hbegin : drv.Beginx db = (none, db1)) (hpw : user.LocalPasswd = some plain)
    (hhash : collab.DerivePassword plain = .ok enc) :
    (drv.NamedQuery .insertQuery { user with LocalPasswd := some enc } db1
        = (.error (.pqError pqErr), db2) →
      (TOUser.Create drv collab user db).result
        = some (if (collab.ParsePQUniqueConstraintError pqErr).2 = .DataConflictError
            then (some ("a user with " ++ (collab.ParsePQUniqueConstraintError pqErr).1),
              .DataConflictError)
            else (some (collab.ParsePQUniqueConstraintError pqErr).1,
              (collab.ParsePQUniqueConstraintError pqErr).2))) ∧
    (drv.NamedQuery .updateQuery { user with LocalPasswd := some enc } db1
        = (.error (.pqError pqErr), db2) →
      (TOUser.Update drv collab user db).result
        = some (if (collab.ParsePQUniqueConstraintError pqErr).2 = .DataConflictError
            then (some ("a user with " ++ (collab.ParsePQUniqueConstraintError pqErr).1),
              .DataConflictError)
            else (some (collab.ParsePQUniqueConstraintError pqErr).1,
              (collab.ParsePQUniqueConstraintError pqErr).2))) := by
  constructor
  · intro hstmt
    rw [Create_statement_error drv collab user db db1 db2 plain enc _ hbegin hpw hhash hstmt]
    simp only [TOUser.statementError]
    split <;> simp_all
  · intro hstmt
    rw [Update_statement_error drv collab user db db1 db2 plain enc _ hbegin hpw hhash hstmt]
    simp only [TOUser.statementError]
    split <;> simp_all

/-- C8 at a scripted `Create` whose insert violates the unique constraint on the username. -/
theorem C8_conflict_message_witness :
    (TOUser.Create (Script.driver { query := .error (.pqError uniqueViolation) })
        testCollaborators testUser0 ()).result
      = some (some "a user with username already exists", .DataConflictError) :=
  (C8_conflict_message (Script.driver { query := .error (.pqError uniqueViolation) })
    testCollaborators testUser0 () () () "letmein" "SCRYPT:letmein" uniqueViolation
    rfl rfl rfl).1 rfl

/-! ### C9: the number of rows -/

theorem scanCreate_ok (rows : List ScannedRow) (n : Nat) (id : Int) (lastUpdated : tc.TimeNoMod) :
    ∃ id' lastUpdated',
      TOUser.scanCreate (rows.map .ok) n id lastUpdated
        = .ok (n + rows.length, id', lastUpdated') := by
  induction rows generalizing n id lastUpdated with
  | nil => exact ⟨id, lastUpdated, rfl⟩
  | cons row rows ih =>
    obtain ⟨id', lastUpdated', h⟩ := ih (n + 1) row.id row.last_updated
    refine ⟨id', lastUpdated', ?_⟩
    simp only [List.map, TOUser.scanCreate, h, List.length_cons]
    congr 2
    omega

theorem scanUpdate_ok (rows : List ScannedRow) (n : Nat) (lastUpdated : tc.TimeNoMod) :
    ∃ lastUpdated',
      TOUser.scanUpdate (rows.map .ok) n lastUpdated = .ok (n + rows.length, lastUpdated') := by
  induction rows generalizing n lastUpdated with
  | nil => exact ⟨lastUpdated, rfl⟩
  | cons row rows ih =>
    obtain ⟨lastUpdated', h⟩ := ih (n + 1) row.last_updated
    refine ⟨lastUpdated', ?_⟩
    simp only [List.map, TOUser.scanUpdate, h, List.length_cons]
    congr 2
    omega

/-- C9 fails for `Create`: an insert that succeeds and returns no row gives kind `SystemError`,
not `DataMissingError`. -/
theorem C9_counterexample_create_no_rows :
    (TOUser.Create (Script.driver { query := .ok [] }) testCollaborators testUser0 ()).result
      = some (some "no user was inserted, no id was returned", .SystemError) := by
  decide

/-- C9 (amended): when the statement succeeds and every returned row scans (for `Delete`: the
count is readable), the verdict depends only on the number `n` of rows. In `Update` and
`Delete`, `n = 0` gives kind `DataMissingError`; in `Create`, `n = 0` gives kind `SystemError`.
In all three, `n = 1` lets the operation call `Commit`, whose outcome decides the result, and
`n > 1` gives kind `SystemError`; `Commit` is not called unless `n = 1`. -/
theorem C9_row_count_verdict {σ : Type} (drv : Driver σ) (collab : Collaborators)
    (user : TOUser) (db db1 db2 : σ) (hbegin : drv.Beginx db = (none, db1)) :
    (∀ (plain enc : String) (rows : List ScannedRow), user.LocalPasswd = some plain → collab.DerivePassword plain = .ok enc →
      drv.NamedQuery .insertQuery { user with LocalPasswd := some enc } db1
        = (.ok (rows.map .ok), db2) →
      RowCountVerdict drv db2 rows.length .SystemError (TOUser.Create drv collab user db)) ∧
    (∀ (plain enc : String) (rows : List ScannedRow), user.LocalPasswd = some plain → collab.DerivePassword plain = .ok enc →
      drv.NamedQuery .updateQuery { user with LocalPasswd := some enc } db1
        = (.ok (rows.map .ok), db2) →
      RowCountVerdict drv db2 rows.length .DataMissingError
        (TOUser.Update drv collab user db)) ∧
    (∀ n : Nat, drv.NamedExec .deactivateUserQuery user db1 = (.ok (.ok (n : Int)), db2) →
      RowCountVerdict drv db2 n .DataMissingError (TOUser.Delete drv user db)) := by
  refine ⟨?_, ?_, ?_⟩
  · intro plain enc rows hpw hhash hstmt
    obtain ⟨id', lu', hscan⟩ := scanCreate_ok rows 0 0 {}
    rw [Nat.zero_add] at hscan
    refine ⟨?_, ?_, ?_⟩
    · intro h0
      simp [TOUser.Create, hbegin, hpw, hhash, hstmt, hscan, h0, TOUser.finish]
    · intro h1
      cases hc : drv.Commit db2 with
      | mk cerr db3 =>
        cases cerr <;>
          simp [TOUser.Create, hbegin, hpw, hhash, hstmt, hscan, h1, hc, TOUser.finish]
    · intro hn
      have h0 : rows.length ≠ 0 := by omega
      simp [TOUser.Create, hbegin, hpw, hhash, hstmt, hscan, h0, hn, TOUser.finish]
  · intro plain enc rows hpw hhash hstmt
    obtain ⟨lu', hscan⟩ := scanUpdate_ok rows 0 {}
    rw [Nat.zero_add] at hscan
    refine ⟨?_, ?_, ?_⟩
    · intro h0
      simp [TOUser.Update, hbegin, hpw, hhash, hstmt, hscan, h0, TOUser.finish]
    · intro h1
      cases hc : drv.Commit db2 with
      | mk cerr db3 =>
        cases cerr <;>
          simp [TOUser.Update, hbegin, hpw, hhash, hstmt, hscan, h1, hc, TOUser.finish]
    · intro hn
      have h1 : rows.length ≠ 1 := by omega
      have h0 : ¬ rows.length < 1 := by omega
      simp [TOUser.Update, hbegin, hpw, hhash, hstmt, hscan, h0, h1, TOUser.finish]
  · intro n hstmt
    refine ⟨?_, ?_, ?_⟩
    · intro h0
      subst h0
      simp [TOUser.Delete, hbegin, hstmt, TOUser.finish]
    · intro h1
      subst h1
      cases hc : drv.Commit db2 with
      | mk cerr db3 =>
        cases cerr <;> simp [TOUser.Delete, hbegin, hstmt, hc, TOUser.finish]
    · intro hn
      have h1 : ¬ (n : Int) = 1 := by omega
      have h0 : ¬ (n : Int) < 1 := by omega
      simp [TOUser.Delete, hbegin, hstmt, h0, h1, TOUser.finish]

/-- C9 (amended) at a scripted `Update` that affects no row and a scripted `Delete` that
affects two. -/
theorem C9_row_count_verdict_witness :
    (∃ message,
      (TOUser.Update (Script.driver { query := .ok [] }) testCollaborators testUser0 ()).result
        = some (some message, .DataMissingError)) ∧
    (∃ message,
      (TOUser.Delete (Script.driver { exec := .ok (.ok 2) }) testUser0 ()).result
        = some (some message, .SystemError)) :=
  ⟨((C9_row_count_verdict (Script.driver { query := .ok [] }) testCollaborators testUser0
      () () () rfl).2.1 "letmein" "SCRYPT:letmein" [] rfl rfl rfl).1 rfl |>.1,
   ((C9_row_count_verdict (Script.driver { exec := .ok (.ok 2) }) testCollaborators testUser0
      () () () rfl).2.2 2 rfl).2.2 (by decide) |>.1⟩

/-! ### C10: `Update` of an id that matches no row -/

/-- C15, evaluated on the struct tags: the external names of `UserNullable` are the 24 listed
names except that the tenant field is carried under `tentantId`; `tenantId` is not among
them. -/
theorem C15_json_names_tenant :
    tc.UserNullable.jsonNameOf "TenantID" = some "tentantId" ∧
    "tenantId" ∉ tc.UserNullable.jsonNames ∧
    tc.UserNullable.jsonNames ≠ wireNames ∧
    tc.UserNullable.jsonNames.length = 24 ∧
    tc.UserNullable.jsonNames.map (fun name => if name = "tentantId" then "tenantId" else name)
      = wireNames := by
  decide

theorem IsOneOfString_eq_true_iff (set : List String) (s : String) :
    tovalidate.IsOneOfString set s = true ↔ s ∈ set := by
  induction set with
  | nil => simp [tovalidate.IsOneOfString]
  | cons x rest ih =>
    by_cases h : s = x
    · simp [tovalidate.IsOneOfString, h]
    · simp [tovalidate.IsOneOfString, h, ih]

theorem mem_lowcased_iff (ToLower : String → String) (set : List String) (s : String) :
    s ∈ tovalidate.lowcased ToLower set ↔ ∃ x ∈ set, ToLower x = s := by
  induction set with
  | nil => simp [tovalidate.lowcased]
  | cons x rest ih =>
    simp only [tovalidate.lowcased, List.mem_cons, ih, exists_eq_or_imp]
    constructor
    · rintro (h | h)
      · exact Or.inl h.symm
      · exact Or.inr h
    · rintro (h | h)
      · exact Or.inl h.symm
      · exact Or.inr h

/-- C16, evaluated: `IsOneOfStringICase` lowers the members of the set and compares them with
the input as given, so it returns true exactly when the input equals the lowered form of some
member; `IsOneOfStringICase("HTTP")("HTTP")` and `IsOneOfStringICase("http")("HTTP")` are both
false, while `IsOneOfStringICase("HTTP")("http")` is true. -/
theorem C16_IsOneOfStringICase_input_not_lowered :
    (∀ (ToLower : String → String) (set : List String) (s : String),
      tovalidate.IsOneOfStringICase ToLower set s = true ↔ ∃ x ∈ set, ToLower x = s) ∧
    tovalidate.IsOneOfStringICase asciiToLower ["HTTP"] "HTTP" = false ∧
    tovalidate.IsOneOfStringICase asciiToLower ["http"] "HTTP" = false ∧
    tovalidate.IsOneOfStringICase asciiToLower ["HTTP"] "http" = true := by
  refine ⟨?_, by decide, by decide, by decide⟩
  intro ToLower set s
  rw [tovalidate.IsOneOfStringICase, IsOneOfString_eq_true_iff, mem_lowcased_iff]

/-- C17: `GetID` returns (0, false) when the id is absent and (v, true) when it is present with
value v; after `SetID(i)`, `GetID` returns (i, true) and every field other than the id is as
before. -/
theorem C17_GetID_SetID (user : TOUser) (i : Int) :
    (user.ID = none → TOUser.GetID user = (0, false)) ∧
    (∀ v, user.ID = some v → TOUser.GetID user = (v, true)) ∧
    TOUser.GetID (TOUser.SetID user i) = (i, true) ∧
    { TOUser.SetID user i with ID := user.ID } = user := by
  refine ⟨?_, ?_, rfl, rfl⟩
  · intro h
    simp [TOUser.GetID, h]
  · intro v h
    simp [TOUser.GetID, h]

/-- C17 at the steps of `TestIdentifier`: the empty record, then the record with id 0. -/
theorem C17_GetID_SetID_witness :
    TOUser.GetID {} = (0, false) ∧ TOUser.GetID (TOUser.SetID {} 0) = (0, true) :=
  ⟨(C17_GetID_SetID {} 0).1 rfl, (C17_GetID_SetID {} 0).2.2.1⟩

/-- C18: `GetAuditName` returns the username when it is present, whatever the id; otherwise
the decimal text of the id when the id is present; and "0" when both are absent. -/
theorem C18_GetAuditName (user : TOUser) :
    (∀ name, user.Username = some name → TOUser.GetAuditName user = name) ∧
    (∀ id, user.Username = none → user.ID = some id →
      TOUser.GetAuditName user = strconv.Itoa id) ∧
    (user.Username = none → user.ID = none → TOUser.GetAuditName user = "0") := by
  refine ⟨?_, ?_, ?_⟩
  · intro name h
    simp [TOUser.GetAuditName, h]
  · intro id hname hid
    simp [TOUser.GetAuditName, TOUser.GetID, hname, hid]
  · intro hname hid
    simp [TOUser.GetAuditName, TOUser.GetID, hname, hid]
    decide

/-- C18 at the steps of `TestIdentifier` and at a negative id. -/
theorem C18_GetAuditName_witness :
    TOUser.GetAuditName {} = "0" ∧
    TOUser.GetAuditName { ID := some 0 } = "0" ∧
    TOUser.GetAuditName { ID := some (-12) } = "-12" ∧
    TOUser.GetAuditName { ID := some 0, Username := some "buckaroo" } = "buckaroo" :=
  ⟨(C18_GetAuditName {}).2.2 rfl rfl,
   (C18_GetAuditName { ID := some 0 }).2.1 0 rfl rfl,
   (C18_GetAuditName { ID := some (-12) }).2.1 (-12) rfl rfl,
   (C18_GetAuditName { ID := some 0, Username := some "buckaroo" }).1 "buckaroo" rfl⟩

/-! ### C11: commit and rollback -/

theorem Create_TxDiscipline {σ : Type} (drv : Driver σ) (collab : Collaborators)
    (user : TOUser) (db : σ) :
    TxDiscipline (drv.Beginx db).1.isNone
      (TOUser.Create drv.traced collab user (db, [])) := by
  rcases hb : drv.Beginx db with ⟨_ | berr, db1⟩
  · cases hp : user.LocalPasswd with
    | none => simp [TxDiscipline, TOUser.Create, Driver.traced, hb, hp, TOUser.finish]
    | some plain =>
      cases hh : collab.DerivePassword plain with
      | error err =>
        simp [TxDiscipline, TOUser.Create, Driver.traced, hb, hp, hh, TOUser.finish]
      | ok enc =>
        rcases hq : drv.NamedQuery .insertQuery { user with LocalPasswd := some enc } db1
          with ⟨qerr | rows, db2⟩
        · have hne : TOUser.statementError collab qerr ≠ (none, .NoError) := by
            cases qerr with
            | pqError e =>
              simp only [TOUser.statementError]
              split <;> simp
            | other text => simp [TOUser.statementError]
          simp [TxDiscipline, TOUser.Create, Driver.traced, hb, hp, hh, hq, TOUser.finish, hne]
        · cases hs : TOUser.scanCreate rows 0 0 {} with
          | error err =>
            simp [TxDiscipline, TOUser.Create, Driver.traced, hb, hp, hh, hq, hs,
              TOUser.finish]
          | ok res =>
            obtain ⟨n, id, lu⟩ := res
            by_cases h0 : n = 0
            · simp [TxDiscipline, TOUser.Create, Driver.traced, hb, hp, hh, hq, hs, h0,
                TOUser.finish]
            · by_cases h1 : n > 1
              · simp [TxDiscipline, TOUser.Create, Driver.traced, hb, hp, hh, hq, hs, h0, h1,
                  TOUser.finish]
              · rcases hc : drv.Commit db2 with ⟨_ | cerr, db3⟩ <;>
                  simp [TxDiscipline, TOUser.Create, Driver.traced, hb, hp, hh, hq, hs, h0, h1,
                    hc, TOUser.finish]
  · simp [TxDiscipline, TOUser.Create, Driver.traced, hb]

theorem statementError_ne_success (collab : Collaborators) (err : StmtError) :
    TOUser.statementError collab err ≠ (none, .NoError) := by
  cases err with
  | pqError e =>
    simp only [TOUser.statementError]
    split <;> simp
  | other text => simp [TOUser.statementError]

theorem Update_TxDiscipline {σ : Type} (drv : Driver σ) (collab : Collaborators)
    (user : TOUser) (db : σ) :
    TxDiscipline (drv.Beginx db).1.isNone
      (TOUser.Update drv.traced collab user (db, [])) := by
  rcases hb : drv.Beginx db with ⟨_ | berr, db1⟩
  · cases hp : user.LocalPasswd with
    | none => simp [TxDiscipline, TOUser.Update, Driver.traced, hb, hp, TOUser.finish]
    | some plain =>
      cases hh : collab.DerivePassword plain with
      | error err =>
        simp [TxDiscipline, TOUser.Update, Driver.traced, hb, hp, hh, TOUser.finish]
      | ok enc =>
        rcases hq : drv.NamedQuery .updateQuery { user with LocalPasswd := some enc } db1
          with ⟨qerr | rows, db2⟩
        · have hne := statementError_ne_success collab qerr
          simp [TxDiscipline, TOUser.Update, Driver.traced, hb, hp, hh, hq, TOUser.finish, hne]
        · cases hs : TOUser.scanUpdate rows 0 {} with
          | error err =>
            simp [TxDiscipline, TOUser.Update, Driver.traced, hb, hp, hh, hq, hs,
              TOUser.finish]
          | ok res =>
            obtain ⟨n, lu⟩ := res
            by_cases h1 : n = 1
            · rcases hc : drv.Commit db2 with ⟨_ | cerr, db3⟩ <;>
                simp [TxDiscipline, TOUser.Update, Driver.traced, hb, hp, hh, hq, hs, h1, hc,
                  TOUser.finish]
            · by_cases h0 : n < 1 <;>
                simp [TxDiscipline, TOUser.Update, Driver.traced, hb, hp, hh, hq, hs, h0, h1,
                  TOUser.finish]
  · simp [TxDiscipline, TOUser.Update, Driver.traced, hb]

theorem Delete_TxDiscipline {σ : Type} (drv : Driver σ) (user : TOUser) (db : σ) :
    TxDiscipline (drv.Beginx db).1.isNone (TOUser.Delete drv.traced user (db, [])) := by
  rcases hb : drv.Beginx db with ⟨_ | berr, db1⟩
  · rcases hq : drv.NamedExec .deactivateUserQuery user db1 with ⟨qerr | res, db2⟩
    · simp [TxDiscipline, TOUser.Delete, Driver.traced, hb, hq, TOUser.finish]
    · cases res with
      | error err => simp [TxDiscipline, TOUser.Delete, Driver.traced, hb, hq, TOUser.finish]
      | ok n =>
        by_cases h1 : n = 1
        · rcases hc : drv.Commit db2 with ⟨_ | cerr, db3⟩ <;>
            simp [TxDiscipline, TOUser.Delete, Driver.traced, hb, hq, h1, hc, TOUser.finish]
        · by_cases h0 : n < 1 <;>
            simp [TxDiscipline, TOUser.Delete, Driver.traced, hb, hq, h0, h1, TOUser.finish]
  · simp [TxDiscipline, TOUser.Delete, Driver.traced, hb]

/-- C11: for each of `Create`, `Update` and `Delete`, every driver, every hash and translator,
every record and every database state, run on the traced driver: when the transaction was
opened, the operation returns `(nil, NoError)` if and only if `Commit` was called and succeeded,
on every other exit `Rollback` was called, and no `Rollback` follows a successful `Commit`;
when the transaction could not be opened, nothing was committed or rolled back. -/
theorem C11_commit_or_rollback {σ : Type} (drv : Driver σ) (collab : Collaborators)
    (user : TOUser) (db : σ) :
    TxDiscipline (drv.Beginx db).1.isNone (TOUser.Create drv.traced collab user (db, [])) ∧
    TxDiscipline (drv.Beginx db).1.isNone (TOUser.Update drv.traced collab user (db, [])) ∧
    TxDiscipline (drv.Beginx db).1.isNone (TOUser.Delete drv.traced user (db, [])) :=
  ⟨Create_TxDiscipline drv collab user db, Update_TxDiscipline drv collab user db,
   Delete_TxDiscipline drv user db⟩

/-- C11 on scripted drivers: an `Update` whose commit fails records the failed commit and then
a rollback; a `Delete` that succeeds records the commit only; a `Create` whose transaction
cannot be opened records nothing. -/
theorem C11_commit_or_rollback_witness :
    (TOUser.Update (Script.driver
        { query := .ok [.ok {}], commitErr := some "commit failed" }).traced
        testCollaborators testUser0 ((), [])).db.2
      = [.commit (some "commit failed"), .rollback none] ∧
    (TOUser.Delete (Script.driver {}).traced testUser0 ((), [])).db.2 = [.commit none] ∧
    TxDiscipline true (TOUser.Delete (Script.driver {}).traced testUser0 ((), [])) ∧
    TxDiscipline false
      (TOUser.Create (Script.driver { beginErr := some "no connection" }).traced
        testCollaborators testUser0 ((), [])) :=
  ⟨by decide, by decide,
   (C11_commit_or_rollback (Script.driver {}) testCollaborators testUser0 ()).2.2,
   (C11_commit_or_rollback (Script.driver { beginErr := some "no connection" })
      testCollaborators testUser0 ()).1⟩

/-! ### C12: what a successful `Create` or `Update` reads back -/

theorem scanCreate_count (rows : List (Except String ScannedRow)) (n m : Nat) (id id' : Int)
    (lu lu' : tc.TimeNoMod) (h : TOUser.scanCreate rows n id lu = .ok (m, id', lu')) :
    m = n + rows.length := by
  induction rows generalizing n id lu with
  | nil =>
    simp only [TOUser.scanCreate, Except.ok.injEq, Prod.mk.injEq] at h
    simp [h.1]
  | cons row rows ih =>
    cases row with
    | error err => simp [TOUser.scanCreate] at h
    | ok r =>
      have := ih (n + 1) r.id r.last_updated h
      simp only [List.length_cons]
      omega

theorem scanCreate_single (rows : List (Except String ScannedRow)) (id id' : Int)
    (lu lu' : tc.TimeNoMod) (h : TOUser.scanCreate rows 0 id lu = .ok (1, id', lu')) :
    ∃ row, rows = [.ok row] ∧ id' = row.id ∧ lu' = row.last_updated := by
  have hlen := scanCreate_count rows 0 1 id id' lu lu' h
  match rows, h, hlen with
  | [.ok row], h, _ =>
    simp only [TOUser.scanCreate, Except.ok.injEq, Prod.mk.injEq] at h
    exact ⟨row, rfl, h.2.1.symm, h.2.2.symm⟩
  | [.error err], h, _ => simp [TOUser.scanCreate] at h
  | [], _, hlen => simp at hlen
  | _ :: _ :: _, _, hlen =>
    simp only [List.length_cons] at hlen
    omega

theorem scanUpdate_count (rows : List (Except String ScannedRow)) (n m : Nat)
    (lu lu' : tc.TimeNoMod) (h : TOUser.scanUpdate rows n lu = .ok (m, lu')) :
    m = n + rows.length := by
  induction rows generalizing n lu with
  | nil =>
    simp only [TOUser.scanUpdate, Except.ok.injEq, Prod.mk.injEq] at h
    simp [h.1]
  | cons row rows ih =>
    cases row with
    | error err => simp [TOUser.scanUpdate] at h
    | ok r =>
      have := ih (n + 1) r.last_updated h
      simp only [List.length_cons]
      omega

theorem scanUpdate_single (rows : List (Except String ScannedRow))
    (lu lu' : tc.TimeNoMod) (h : TOUser.scanUpdate rows 0 lu = .ok (1, lu')) :
    ∃ row, rows = [.ok row] ∧ lu' = row.last_updated := by
  have hlen := scanUpdate_count rows 0 1 lu lu' h
  match rows, h, hlen with
  | [.ok row], h, _ =>
    simp only [TOUser.scanUpdate, Except.ok.injEq, Prod.mk.injEq] at h
    exact ⟨row, rfl, h.2.symm⟩
  | [.error err], h, _ => simp [TOUser.scanUpdate] at h
  | [], _, hlen => simp at hlen
  | _ :: _ :: _, _, hlen =>
    simp only [List.length_cons] at hlen
    omega

theorem Create_success {σ : Type} (drv : Driver σ) (collab : Collaborators)
    (user : TOUser) (db : σ)
    (hok : (TOUser.Create drv collab user db).result = some (none, .NoError)) :
    ∃ plain enc row db1 db2,
      drv.Beginx db = (none, db1) ∧ user.LocalPasswd = some plain ∧
      collab.DerivePassword plain = .ok enc ∧
      drv.NamedQuery .insertQuery { user with LocalPasswd := some enc } db1
        = (.ok [.ok row], db2) ∧
      (TOUser.Create drv collab user db).user
        = { user with LocalPasswd := some enc, ID := some row.id,
                      LastUpdated := some row.last_updated } := by
  rcases hb : drv.Beginx db with ⟨_ | berr, db1⟩
  · cases hp : user.LocalPasswd with
    | none => simp [TOUser.Create, hb, hp, TOUser.finish] at hok
    | some plain =>
      cases hh : collab.DerivePassword plain with
      | error err => simp [TOUser.Create, hb, hp, hh, TOUser.finish] at hok
      | ok enc =>
        rcases hq : drv.NamedQuery .insertQuery { user with LocalPasswd := some enc } db1
          with ⟨qerr | rows, db2⟩
        · have hne := statementError_ne_success collab qerr
          simp [TOUser.Create, hb, hp, hh, hq, TOUser.finish, hne] at hok
        · cases hs : TOUser.scanCreate rows 0 0 {} with
          | error err => simp [TOUser.Create, hb, hp, hh, hq, hs, TOUser.finish] at hok
          | ok res =>
            obtain ⟨n, id, lu⟩ := res
            by_cases h0 : n = 0
            · simp [TOUser.Create, hb, hp, hh, hq, hs, h0, TOUser.finish] at hok
            · by_cases h1 : n > 1
              · simp [TOUser.Create, hb, hp, hh, hq, hs, h0, h1, TOUser.finish] at hok
              · have hn : n = 1 := by omega
                subst hn
                obtain ⟨row, hrows, hid, hlu⟩ := scanCreate_single rows 0 id {} lu hs
                subst hrows hid hlu
                refine ⟨plain, enc, row, db1, db2, rfl, rfl, hh, hq, ?_⟩
                rcases hc : drv.Commit db2 with ⟨_ | cerr, db3⟩ <;>
                  simp [TOUser.Create, hb, hp, hh, hq, hs, hc, TOUser.finish, TOUser.SetID]
  · simp [TOUser.Create, hb] at hok

theorem Update_success {σ : Type} (drv : Driver σ) (collab : Collaborators)
    (user : TOUser) (db : σ)
    (hok : (TOUser.Update drv collab user db).result = some (none, .NoError)) :
    ∃ plain enc row db1 db2,
      drv.Beginx db = (none, db1) ∧ user.LocalPasswd = some plain ∧
      collab.DerivePassword plain = .ok enc ∧
      drv.NamedQuery .updateQuery { user with LocalPasswd := some enc } db1
        = (.ok [.ok row], db2) ∧
      (TOUser.Update drv collab user db).user
        = { user with LocalPasswd := some enc, LastUpdated := some row.last_updated } := by
  rcases hb : drv.Beginx db with ⟨_ | berr, db1⟩
  · cases hp : user.LocalPasswd with
    | none => simp [TOUser.Update, hb, hp, TOUser.finish] at hok
    | some plain =>
      cases hh : collab.DerivePassword plain with
      | error err => simp [TOUser.Update, hb, hp, hh, TOUser.finish] at hok
      | ok enc =>
        rcases hq : drv.NamedQuery .updateQuery { user with LocalPasswd := some enc } db1
          with ⟨qerr | rows, db2⟩
        · have hne := statementError_ne_success collab qerr
          simp [TOUser.Update, hb, hp, hh, hq, TOUser.finish, hne] at hok
        · cases hs : TOUser.scanUpdate rows 0 {} with
          | error err => simp [TOUser.Update, hb, hp, hh, hq, hs, TOUser.finish] at hok
          | ok res =>
            obtain ⟨n, lu⟩ := res
            by_cases h1 : n = 1
            · subst h1
              obtain ⟨row, hrows, hlu⟩ := scanUpdate_single rows {} lu hs
              subst hrows hlu
              refine ⟨plain, enc, row, db1, db2, rfl, rfl, hh, hq, ?_⟩
              rcases hc : drv.Commit db2 with ⟨_ | cerr, db3⟩ <;>
                simp [TOUser.Update, hb, hp, hh, hq, hs, hc, TOUser.finish]
            · by_cases h0 : n < 1 <;>
                simp [TOUser.Update, hb, hp, hh, hq, hs, h0, h1, TOUser.finish] at hok
  · simp [TOUser.Update, hb] at hok

/-- C12: whenever `Create` returns `(nil, NoError)`, the insert statement, run in the opened
transaction on the record with the hashed credential, returned a single row, and the record's
id and lastUpdated are non-null and equal to that row's id and last_updated, so that `GetID`
returns (that id, true); whenever `Update` returns `(nil, NoError)`, the update statement
returned a single row, the record's lastUpdated equals that row's last_updated, and its id is
unchanged. -/
theorem C12_read_back {σ : Type} (drv : Driver σ) (collab : Collaborators)
    (user : TOUser) (db : σ) :
    ((TOUser.Create drv collab user db).result = some (none, .NoError) →
      ∃ plain enc row db1 db2,
        drv.Beginx db = (none, db1) ∧ user.LocalPasswd = some plain ∧
        collab.DerivePassword plain = .ok enc ∧
        drv.NamedQuery .insertQuery { user with LocalPasswd := some enc } db1
          = (.ok [.ok row], db2) ∧
        (TOUser.Create drv collab user db).user.ID = some row.id ∧
        (TOUser.Create drv collab user db).user.LastUpdated = some row.last_updated ∧
        TOUser.GetID (TOUser.Create drv collab user db).user = (row.id, true)) ∧
    ((TOUser.Update drv collab user db).result = some (none, .NoError) →
      ∃ plain enc row db1 db2,
        drv.Beginx db = (none, db1) ∧ user.LocalPasswd = some plain ∧
        collab.DerivePassword plain = .ok enc ∧
        drv.NamedQuery .updateQuery { user with LocalPasswd := some enc } db1
          = (.ok [.ok row], db2) ∧
        (TOUser.Update drv collab user db).user.LastUpdated = some row.last_updated ∧
        (TOUser.Update drv collab user db).user.ID = user.ID) := by
  constructor
  · intro hok
    obtain ⟨plain, enc, row, db1, db2, hb, hp, hh, hq, huser⟩ :=
      Create_success drv collab user db hok
    refine ⟨plain, enc, row, db1, db2, hb, hp, hh, hq, ?_, ?_, ?_⟩ <;>
      simp [huser, TOUser.GetID]
  · intro hok
    obtain ⟨plain, enc, row, db1, db2, hb, hp, hh, hq, huser⟩ :=
      Update_success drv collab user db hok
    refine ⟨plain, enc, row, db1, db2, hb, hp, hh, hq, ?_, ?_⟩ <;> rw [huser]

/-- C12 on a scripted driver that returns the row (id 42, last_updated 1000): the successful
`Create` leaves a record whose id and lastUpdated are those of the returned row. -/
theorem C12_read_back_witness :
    ∃ plain enc row db1 db2,
      (Script.driver { query := .ok [.ok { id := 42, last_updated := ⟨1000, true⟩ }] }).Beginx ()
        = (none, db1) ∧
      testUser0.LocalPasswd = some plain ∧
      testCollaborators.DerivePassword plain = .ok enc ∧
      (Script.driver { query := .ok [.ok { id := 42, last_updated := ⟨1000, true⟩ }] }).NamedQuery
          .insertQuery { testUser0 with LocalPasswd := some enc } db1 = (.ok [.ok row], db2) ∧
      (TOUser.Create (Script.driver
          { query := .ok [.ok { id := 42, last_updated := ⟨1000, true⟩ }] })
          testCollaborators testUser0 ()).user.ID = some row.id ∧
      (TOUser.Create (Script.driver
          { query := .ok [.ok { id := 42, last_updated := ⟨1000, true⟩ }] })
          testCollaborators testUser0 ()).user.LastUpdated = some row.last_updated ∧
      TOUser.GetID (TOUser.Create (Script.driver
          { query := .ok [.ok { id := 42, last_updated := ⟨1000, true⟩ }] })
          testCollaborators testUser0 ()).user = (row.id, true) :=
  (C12_read_back (Script.driver
      { query := .ok [.ok { id := 42, last_updated := ⟨1000, true⟩ }] })
      testCollaborators testUser0 ()).1 (by decide)

/-- The scripted `Create` of the C12 witness, evaluated: the record gets id 42 and the
timestamp 1000 of the returned row. -/
theorem Create_scripted_read_back :
    (TOUser.Create (Script.driver
        { query := .ok [.ok { id := 42, last_updated := ⟨1000, true⟩ }] })
        testCollaborators testUser0 ()).user
      = { testUser0 with LocalPasswd := some "SCRYPT:letmein", ID := some 42,
                         LastUpdated := some ⟨1000, true⟩ } := by
  decide

/-! ### C13: the credential is hashed before the statement -/

theorem Create_result_isSome {σ : Type} (drv : Driver σ) (collab : Collaborators)
    (user : TOUser) (db : σ) (p : String) (hp : user.LocalPasswd = some p) :
    ∃ err kind, (TOUser.Create drv collab user db).result = some (err, kind) := by
  rcases hb : drv.Beginx db with ⟨_ | berr, db1⟩
  · cases hh : collab.DerivePassword p with
    | error err => simp [TOUser.Create, hb, hp, hh, TOUser.finish]
    | ok enc =>
      rcases hq : drv.NamedQuery .insertQuery { user with LocalPasswd := some enc } db1
        with ⟨qerr | rows, db2⟩
      · simp [TOUser.Create, hb, hp, hh, hq, TOUser.finish]
        exact ⟨_, _, rfl⟩
      · cases hs : TOUser.scanCreate rows 0 0 {} with
        | error err => simp [TOUser.Create, hb, hp, hh, hq, hs, TOUser.finish]
        | ok res =>
          obtain ⟨n, id, lu⟩ := res
          by_cases h0 : n = 0
          · simp [TOUser.Create, hb, hp, hh, hq, hs, h0, TOUser.finish]
          · by_cases h1 : n > 1
            · simp [TOUser.Create, hb, hp, hh, hq, hs, h0, h1, TOUser.finish]
            · rcases hc : drv.Commit db2 with ⟨_ | cerr, db3⟩ <;>
                simp [TOUser.Create, hb, hp, hh, hq, hs, h0, h1, hc, TOUser.finish]
  · simp [TOUser.Create, hb]

theorem Update_result_isSome {σ : Type} (drv : Driver σ) (collab : Collaborators)
    (user : TOUser) (db : σ) (p : String) (hp : user.LocalPasswd = some p) :
    ∃ err kind, (TOUser.Update drv collab user db).result = some (err, kind) := by
  rcases hb : drv.Beginx db with ⟨_ | berr, db1⟩
  · cases hh : collab.DerivePassword p with
    | error err => simp [TOUser.Update, hb, hp, hh, TOUser.finish]
    | ok enc =>
      rcases hq : drv.NamedQuery .updateQuery { user with LocalPasswd := some enc } db1
        with ⟨qerr | rows, db2⟩
      · simp [TOUser.Update, hb, hp, hh, hq, TOUser.finish]
        exact ⟨_, _, rfl⟩
      · cases hs : TOUser.scanUpdate rows 0 {} with
        | error err => simp [TOUser.Update, hb, hp, hh, hq, hs, TOUser.finish]
        | ok res =>
          obtain ⟨n, lu⟩ := res
          by_cases h1 : n = 1
          · rcases hc : drv.Commit db2 with ⟨_ | cerr, db3⟩ <;>
              simp [TOUser.Update, hb, hp, hh, hq, hs, h1, hc, TOUser.finish]
          · by_cases h0 : n < 1 <;>
              simp [TOUser.Update, hb, hp, hh, hq, hs, h0, h1, TOUser.finish]
  · simp [TOUser.Update, hb]

/-- C19: for every record whose localPasswd is non-null, `Create` and `Update` return an
(error, kind) pair whatever the driver, the hash and the translator do; for a record whose
localPasswd is absent, once the transaction has been opened they abort with the nil dereference
(no pair is returned), and the only calls made are `Beginx` and the deferred `Rollback`: no
hashing, no statement. -/
theorem C19_nil_credential {σ : Type} (drv : Driver σ) (collab : Collaborators)
    (user : TOUser) (db : σ) :
    (∀ p, user.LocalPasswd = some p →
      (∃ err kind, (TOUser.Create drv collab user db).result = some (err, kind)) ∧
      (∃ err kind, (TOUser.Update drv collab user db).result = some (err, kind))) ∧
    (user.LocalPasswd = none → (drv.Beginx db).1 = none →
      (TOUser.Create drv collab user db).result = none ∧
      (TOUser.Create drv collab user db).calls = [.Beginx, .Rollback] ∧
      (TOUser.Update drv collab user db).result = none ∧
      (TOUser.Update drv collab user db).calls = [.Beginx, .Rollback]) := by
  constructor
  · intro p hp
    exact ⟨Create_result_isSome drv collab user db p hp,
      Update_result_isSome drv collab user db p hp⟩
  · intro hp hbegin
    rcases hb : drv.Beginx db with ⟨_ | berr, db1⟩
    · simp [TOUser.Create, TOUser.Update, hb, hp, TOUser.finish]
    · simp [hb] at hbegin

/-- C19 at the record of `TestValidate` with only the username set, on the in-memory store:
`Create` and `Update` abort after `Beginx`, and the deferred function rolls back. -/
theorem C19_nil_credential_witness :
    (TOUser.Create MemDB.driver testCollaborators { Username := some "validuser" }
        { table := testTable }).result = none ∧
    (TOUser.Create MemDB.driver testCollaborators { Username := some "validuser" }
        { table := testTable }).calls = [.Beginx, .Rollback] ∧
    (TOUser.Update MemDB.driver testCollaborators { Username := some "validuser" }
        { table := testTable }).result = none ∧
    (TOUser.Update MemDB.driver testCollaborators { Username := some "validuser" }
        { table := testTable }).calls = [.Beginx, .Rollback] :=
  (C19_nil_credential MemDB.driver testCollaborators { Username := some "validuser" }
    { table := testTable }).2 rfl rfl

/-! ### C20: what a failed `Create` or `Update` leaves in the record -/

theorem Create_user_after_hash {σ : Type} (drv : Driver σ) (collab : Collaborators)
    (user : TOUser) (db db1 : σ) (plain enc : String)
    (hb : drv.Beginx db = (none, db1)) (hp : user.LocalPasswd = some plain)
    (hh : collab.DerivePassword plain = .ok enc) :
    (Call.Commit ∉ (TOUser.Create drv collab user db).calls ∧
      (TOUser.Create drv collab user db).user = { user with LocalPasswd := some enc }) ∨
    (Call.Commit ∈ (TOUser.Create drv collab user db).calls ∧
      ∃ row db2,
        drv.NamedQuery .insertQuery { user with LocalPasswd := some enc } db1
          = (.ok [.ok row], db2) ∧
        (TOUser.Create drv collab user db).user
          = { user with LocalPasswd := some enc, ID := some row.id,
                        LastUpdated := some row.last_updated }) := by
  rcases hq : drv.NamedQuery .insertQuery { user with LocalPasswd := some enc } db1
    with ⟨qerr | rows, db2⟩
  · left
    simp [TOUser.Create, hb, hp, hh, hq, TOUser.finish]
  · cases hs : TOUser.scanCreate rows 0 0 {} with
    | error err =>
      left
      simp [TOUser.Create, hb, hp, hh, hq, hs, TOUser.finish]
    | ok res =>
      obtain ⟨n, id, lu⟩ := res
      by_cases h0 : n = 0
      · left
        simp [TOUser.Create, hb, hp, hh, hq, hs, h0, TOUser.finish]
      · by_cases h1 : n > 1
        · left
          simp [TOUser.Create, hb, hp, hh, hq, hs, h0, h1, TOUser.finish]
        · right
          have hn : n = 1 := by omega
          subst hn
          obtain ⟨row, hrows, hid, hlu⟩ := scanCreate_single rows 0 id {} lu hs
          subst hrows hid hlu
          rcases hc : drv.Commit db2 with ⟨_ | cerr, db3⟩ <;>
            simp [TOUser.Create, hb, hp, hh, hq, hs, hc, TOUser.finish, TOUser.SetID]

theorem Update_user_after_hash {σ : Type} (drv : Driver σ) (collab : Collaborators)
    (user : TOUser) (db db1 : σ) (plain enc : String)
    (hb : drv.Beginx db = (none, db1)) (hp : user.LocalPasswd = some plain)
    (hh : collab.DerivePassword plain = .ok enc) :
    (TOUser.Update drv collab user db).user = { user with LocalPasswd := some enc } ∨
    ∃ rows db2 n lu,
      drv.NamedQuery .updateQuery { user with LocalPasswd := some enc } db1 = (.ok rows, db2) ∧
      TOUser.scanUpdate rows 0 {} = .ok (n, lu) ∧
      (TOUser.Update drv collab user db).user
        = { user with LocalPasswd := some enc, LastUpdated := some lu } := by
  rcases hq : drv.NamedQuery .updateQuery { user with LocalPasswd := some enc } db1
    with ⟨qerr | rows, db2⟩
  · left
    simp [TOUser.Update, hb, hp, hh, hq, TOUser.finish]
  · cases hs : TOUser.scanUpdate rows 0 {} with
    | error err =>
      left
      simp [TOUser.Update, hb, hp, hh, hq, hs, TOUser.finish]
    | ok res =>
      obtain ⟨n, lu⟩ := res
      right
      refine ⟨rows, db2, n, lu, rfl, hs, ?_⟩
      by_cases h1 : n = 1
      · rcases hc : drv.Commit db2 with ⟨_ | cerr, db3⟩ <;>
          simp [TOUser.Update, hb, hp, hh, hq, hs, h1, hc, TOUser.finish]
      · by_cases h0 : n < 1 <;>
          simp [TOUser.Update, hb, hp, hh, hq, hs, h0, h1, TOUser.finish]

theorem DerivePassword_mem_calls {σ : Type} (drv : Driver σ) (collab : Collaborators)
    (user : TOUser) (db : σ) (p : String) (hp : user.LocalPasswd = some p)
    (hbegin : (drv.Beginx db).1 = none) :
    Call.DerivePassword p ∈ (TOUser.Create drv collab user db).calls ∧
    Call.DerivePassword p ∈ (TOUser.Update drv collab user db).calls := by
  rcases hb : drv.Beginx db with ⟨_ | berr, db1⟩
  · cases hh : collab.DerivePassword p with
    | error err => simp [TOUser.Create, TOUser.Update, hb, hp, hh, TOUser.finish]
    | ok enc =>
      constructor
      · rcases hq : drv.NamedQuery .insertQuery { user with LocalPasswd := some enc } db1
          with ⟨qerr | rows, db2⟩
        · simp [TOUser.Create, hb, hp, hh, hq, TOUser.finish]
        · cases hs : TOUser.scanCreate rows 0 0 {} with
          | error err => simp [TOUser.Create, hb, hp, hh, hq, hs, TOUser.finish]
          | ok res =>
            obtain ⟨n, id, lu⟩ := res
            by_cases h0 : n = 0
            · simp [TOUser.Create, hb, hp, hh, hq, hs, h0, TOUser.finish]
            · by_cases h1 : n > 1
              · simp [TOUser.Create, hb, hp, hh, hq, hs, h0, h1, TOUser.finish]
              · rcases hc : drv.Commit db2 with ⟨_ | cerr, db3⟩ <;>
                  simp [TOUser.Create, hb, hp, hh, hq, hs, h0, h1, hc, TOUser.finish]
      · rcases hq : drv.NamedQuery .updateQuery { user with LocalPasswd := some enc } db1
          with ⟨qerr | rows, db2⟩
        · simp [TOUser.Update, hb, hp, hh, hq, TOUser.finish]
        · cases hs : TOUser.scanUpdate rows 0 {} with
          | error err => simp [TOUser.Update, hb, hp, hh, hq, hs, TOUser.finish]
          | ok res =>
            obtain ⟨n, lu⟩ := res
            by_cases h1 : n = 1
            · rcases hc : drv.Commit db2 with ⟨_ | cerr, db3⟩ <;>
                simp [TOUser.Update, hb, hp, hh, hq, hs, h1, hc, TOUser.finish]
            · by_cases h0 : n < 1 <;>
                simp [TOUser.Update, hb, hp, hh, hq, hs, h0, h1, TOUser.finish]
  · simp [hb] at hbegin

/-- C20 fails where it says that every other field is unchanged: a `Create` whose commit fails
has already set the record's id and lastUpdated from the returned row, and an `Update` that
affected two rows has already overwritten lastUpdated with the last row's value. -/
theorem C20_counterexample_failed_commit :
    (TOUser.Create commitFailsScript.driver testCollaborators testUser0 ()).result
      = some (some "commit failed", .SystemError) ∧
    testUser0.ID = some 0 ∧ testUser0.LastUpdated = none ∧
    (TOUser.Create commitFailsScript.driver testCollaborators testUser0 ()).user.ID
      = some 42 ∧
    (TOUser.Create commitFailsScript.driver testCollaborators testUser0 ()).user.LastUpdated
      = some ⟨1000, true⟩ ∧
    (TOUser.Update twoRowsScript.driver testCollaborators testUser0 ()).result
      = some (some "this update affected too many rows: 2", .SystemError) ∧
    (TOUser.Update twoRowsScript.driver testCollaborators testUser0 ()).user.LastUpdated
      = some ⟨2000, true⟩ := by
  decide

theorem scanUpdate_map_ok (rows : List ScannedRow) (n : Nat) (lu : tc.TimeNoMod) :
    TOUser.scanUpdate (rows.map .ok) n lu
      = .ok (n + rows.length, (rows.getLast?.map fun row => row.last_updated).getD lu) := by
  induction rows generalizing n lu with
  | nil => rfl
  | cons row rows ih =>
    simp only [List.map_cons, TOUser.scanUpdate, ih, List.length_cons]
    cases rows with
    | nil => simp
    | cons row' rows' =>
      simp only [List.getLast?_cons_cons, List.length_cons]
      have hsome : ((row' :: rows').getLast?).isSome = true := by
        simp [List.getLast?_isSome]
      cases hlast : (row' :: rows').getLast? with
      | none => simp [hlast] at hsome
      | some last =>
        simp only [Option.map_some', Option.getD_some, Except.ok.injEq, Prod.mk.injEq,
          and_true]
        omega

theorem scanUpdate_error_of_mem (rows : List (Except String ScannedRow)) (n : Nat)
    (lu : tc.TimeNoMod) (h : ∃ err, Except.error err ∈ rows) :
    ∃ err, TOUser.scanUpdate rows n lu = .error err := by
  induction rows generalizing n lu with
  | nil =>
    obtain ⟨err, hmem⟩ := h
    cases hmem
  | cons row rows ih =>
    cases row with
    | error e => exact ⟨e, rfl⟩
    | ok r =>
      obtain ⟨err, hmem⟩ := h
      have hrest : ∃ err, Except.error err ∈ rows := by
        rcases List.mem_cons.mp hmem with h1 | h1
        · cases h1
        · exact ⟨err, h1⟩
      exact ih (n + 1) r.last_updated hrest

theorem scanCreate_error_of_mem (rows : List (Except String ScannedRow)) (n : Nat) (id : Int)
    (lu : tc.TimeNoMod) (h : ∃ err, Except.error err ∈ rows) :
    ∃ err, TOUser.scanCreate rows n id lu = .error err := by
  induction rows generalizing n id lu with
  | nil =>
    obtain ⟨err, hmem⟩ := h
    cases hmem
  | cons row rows ih =>
    cases row with
    | error e => exact ⟨e, rfl⟩
    | ok r =>
      obtain ⟨err, hmem⟩ := h
      have hrest : ∃ err, Except.error err ∈ rows := by
        rcases List.mem_cons.mp hmem with h1 | h1
        · cases h1
        · exact ⟨err, h1⟩
      exact ih (n + 1) r.id r.last_updated hrest

theorem Update_user_of_scan {σ : Type} (drv : Driver σ) (collab : Collaborators)
    (user : TOUser) (db db1 db2 : σ) (plain enc : String)
    (rows : List (Except String ScannedRow)) (n : Nat) (lu : tc.TimeNoMod)
    (hb : drv.Beginx db = (none, db1)) (hp : user.LocalPasswd = some plain)
    (hh : collab.DerivePassword plain = .ok enc)
    (hq : drv.NamedQuery .updateQuery { user with LocalPasswd := some enc } db1
      = (.ok rows, db2))
    (hs : TOUser.scanUpdate rows 0 {} = .ok (n, lu)) :
    (TOUser.Update drv collab user db).user
      = { user with LocalPasswd := some enc, LastUpdated := some lu } := by
  by_cases h1 : n = 1
  · rcases hc : drv.Commit db2 with ⟨_ | cerr, db3⟩ <;>
      simp [TOUser.Update, hb, hp, hh, hq, hs, h1, hc, TOUser.finish]
  · by_cases h0 : n < 1 <;>
      simp [TOUser.Update, hb, hp, hh, hq, hs, h0, h1, TOUser.finish]

theorem Create_user_of_single_row {σ : Type} (drv : Driver σ) (collab : Collaborators)
    (user : TOUser) (db db1 db2 : σ) (plain enc : String) (row : ScannedRow)
    (hb : drv.Beginx db = (none, db1)) (hp : user.LocalPasswd = some plain)
    (hh : collab.DerivePassword plain = .ok enc)
    (hq : drv.NamedQuery .insertQuery { user with LocalPasswd := some enc } db1
      = (.ok [.ok row], db2)) :
    (TOUser.Create drv collab user db).user
        = { user with LocalPasswd := some enc, ID := some row.id,
                      LastUpdated := some row.last_updated } ∧
    (∀ err db3, drv.Commit db2 = (some err, db3) →
      (TOUser.Create drv collab user db).result = some (some err, .SystemError)) := by
  rcases hc : drv.Commit db2 with ⟨_ | cerr, db3⟩ <;>
    simp [TOUser.Create, hb, hp, hh, hq, hc, TOUser.scanCreate, TOUser.finish, TOUser.SetID]

/-- C20 (amended): `Create` and `Update` are not atomic on the in-memory record. Once the
transaction is opened and the hashing of the credential has succeeded, on every later exit,
failing or not: the record's localPasswd is the hashed credential, and no field other than
localPasswd, lastUpdated and, in `Create`, id differs from the submitted record. A `Create` that
did not call `Commit` changed localPasswd only, and so did a `Create` whose statement failed,
whose scan failed, or whose rows all scanned and were not exactly one; a `Create` whose
statement returned a single row has also set id and lastUpdated from that row, also when the
commit then fails with kind `SystemError`. An `Update` whose statement failed or
whose scan failed changed localPasswd only; an `Update` whose rows all scanned has overwritten
lastUpdated with the last row's last_updated, whatever the row count and the commit do, and with
the zero timestamp when zero rows were affected, which is returned as the missing error. And
the operation run again on the record it left hashes the already-hashed credential. -/
theorem C20_record_after_failure {σ : Type} (drv : Driver σ) (collab : Collaborators)
    (user : TOUser) (db db1 : σ) (plain enc : String)
    (hb : drv.Beginx db = (none, db1)) (hp : user.LocalPasswd = some plain)
    (hh : collab.DerivePassword plain = .ok enc) :
    (TOUser.Create drv collab user db).user.LocalPasswd = some enc ∧
    (TOUser.Update drv collab user db).user.LocalPasswd = some enc ∧
    { (TOUser.Create drv collab user db).user with
        ID := user.ID, LastUpdated := user.LastUpdated }
      = { user with LocalPasswd := some enc } ∧
    { (TOUser.Update drv collab user db).user with LastUpdated := user.LastUpdated }
      = { user with LocalPasswd := some enc } ∧
    (Call.Commit ∉ (TOUser.Create drv collab user db).calls →
      (TOUser.Create drv collab user db).user = { user with LocalPasswd := some enc }) ∧
    (∀ err db2, drv.NamedQuery .insertQuery { user with LocalPasswd := some enc } db1
        = (.error err, db2) →
      (TOUser.Create drv collab user db).user = { user with LocalPasswd := some enc }) ∧
    (∀ rows db2, drv.NamedQuery .insertQuery { user with LocalPasswd := some enc } db1
        = (.ok rows, db2) → (∃ err, Except.error err ∈ rows) →
      (TOUser.Create drv collab user db).user = { user with LocalPasswd := some enc }) ∧
    (∀ (rows : List ScannedRow) db2,
      drv.NamedQuery .insertQuery { user with LocalPasswd := some enc } db1
        = (.ok (rows.map .ok), db2) → rows.length ≠ 1 →
      (TOUser.Create drv collab user db).user = { user with LocalPasswd := some enc }) ∧
    (∀ row db2, drv.NamedQuery .insertQuery { user with LocalPasswd := some enc } db1
        = (.ok [.ok row], db2) →
      (TOUser.Create drv collab user db).user
        = { user with LocalPasswd := some enc, ID := some row.id,
                      LastUpdated := some row.last_updated } ∧
      (∀ err db3, drv.Commit db2 = (some err, db3) →
        (TOUser.Create drv collab user db).result = some (some err, .SystemError))) ∧
    (∀ err db2, drv.NamedQuery .updateQuery { user with LocalPasswd := some enc } db1
        = (.error err, db2) →
      (TOUser.Update drv collab user db).user = { user with LocalPasswd := some enc }) ∧
    (∀ rows db2, drv.NamedQuery .updateQuery { user with LocalPasswd := some enc } db1
        = (.ok rows, db2) → (∃ err, Except.error err ∈ rows) →
      (TOUser.Update drv collab user db).user = { user with LocalPasswd := some enc }) ∧
    (∀ (rows : List ScannedRow) db2,
      drv.NamedQuery .updateQuery { user with LocalPasswd := some enc } db1
        = (.ok (rows.map .ok), db2) →
      (TOUser.Update drv collab user db).user
        = { user with LocalPasswd := some enc, LastUpdated := some (lastScanned rows) }) ∧
    (∀ db2, drv.NamedQuery .updateQuery { user with LocalPasswd := some enc } db1
        = (.ok [], db2) →
      (TOUser.Update drv collab user db).result
        = some (some "no user found with this id", .DataMissingError) ∧
      (TOUser.Update drv collab user db).user
        = { user with LocalPasswd := some enc, LastUpdated := some {} }) ∧
    (∀ db', (drv.Beginx db').1 = none →
      Call.DerivePassword enc
        ∈ (TOUser.Create drv collab (TOUser.Create drv collab user db).user db').calls ∧
      Call.DerivePassword enc
        ∈ (TOUser.Update drv collab (TOUser.Update drv collab user db).user db').calls) := by
  have hC := Create_user_after_hash drv collab user db db1 plain enc hb hp hh
  have hU := Update_user_after_hash drv collab user db db1 plain enc hb hp hh
  have hCpw : (TOUser.Create drv collab user db).user.LocalPasswd = some enc := by
    rcases hC with ⟨_, h⟩ | ⟨_, row, db2, _, h⟩ <;> rw [h]
  have hUpw : (TOUser.Update drv collab user db).user.LocalPasswd = some enc := by
    rcases hU with h | ⟨rows, db2, n, lu, _, _, h⟩ <;> rw [h]
  refine ⟨hCpw, hUpw, ?_, ?_, ?_, ?_, ?_, ?_, ?_, ?_, ?_, ?_, ?_, ?_⟩
  · rcases hC with ⟨_, h⟩ | ⟨_, row, db2, _, h⟩ <;> rw [h]
  · rcases hU with h | ⟨rows, db2, n, lu, _, _, h⟩ <;> rw [h]
  · intro hno
    rcases hC with ⟨_, h⟩ | ⟨hmem, _⟩
    · exact h
    · exact absurd hmem hno
  · intro err db2 hq
    simp [TOUser.Create, hb, hp, hh, hq, TOUser.finish]
  · intro rows db2 hq herr
    obtain ⟨e, hs⟩ := scanCreate_error_of_mem rows 0 0 {} herr
    simp [TOUser.Create, hb, hp, hh, hq, hs, TOUser.finish]
  · intro rows db2 hq hlen
    obtain ⟨id', lu', hs⟩ := scanCreate_ok rows 0 0 {}
    rw [Nat.zero_add] at hs
    by_cases h0 : rows.length = 0
    · simp [TOUser.Create, hb, hp, hh, hq, hs, h0, TOUser.finish]
    · have h1 : rows.length > 1 := by omega
      simp [TOUser.Create, hb, hp, hh, hq, hs, h0, h1, TOUser.finish]
  · intro row db2 hq
    exact Create_user_of_single_row drv collab user db db1 db2 plain enc row hb hp hh hq
  · intro err db2 hq
    simp [TOUser.Update, hb, hp, hh, hq, TOUser.finish]
  · intro rows db2 hq herr
    obtain ⟨e, hs⟩ := scanUpdate_error_of_mem rows 0 {} herr
    simp [TOUser.Update, hb, hp, hh, hq, hs, TOUser.finish]
  · intro rows db2 hq
    have hs := scanUpdate_map_ok rows 0 {}
    exact Update_user_of_scan drv collab user db db1 db2 plain enc _ _ _ hb hp hh hq hs
  · intro db2 hq
    simp [TOUser.Update, hb, hp, hh, hq, TOUser.scanUpdate, TOUser.finish]
  · intro db' hbegin
    exact ⟨(DerivePassword_mem_calls drv collab _ db' enc hCpw hbegin).1,
      (DerivePassword_mem_calls drv collab _ db' enc hUpw hbegin).2⟩

/-- C20 (amended) on scripted drivers and on the in-memory store: the `Create` whose commit
fails leaves the id and timestamp of the returned row in the record; the `Update` of two rows
leaves the second row's timestamp; the `Update` of a record whose id matches no row leaves the
zero timestamp, and a second `Update` of that record hashes the hash. -/
theorem C20_record_after_failure_witness :
    (TOUser.Create commitFailsScript.driver testCollaborators testUser0 ()).user
      = { testUser0 with LocalPasswd := some "SCRYPT:letmein", ID := some 42,
                         LastUpdated := some ⟨1000, true⟩ } ∧
    (TOUser.Update twoRowsScript.driver testCollaborators testUser0 ()).user
      = { testUser0 with LocalPasswd := some "SCRYPT:letmein",
                         LastUpdated := some ⟨2000, true⟩ } ∧
    (TOUser.Update MemDB.driver testCollaborators strangerUser { table := testTable }).user
      = { strangerUser with LocalPasswd := some "SCRYPT:correct horse",
                            LastUpdated := some {} } ∧
    Call.DerivePassword "SCRYPT:correct horse"
      ∈ (TOUser.Update MemDB.driver testCollaborators
          (TOUser.Update MemDB.driver testCollaborators strangerUser
            { table := testTable }).user { table := testTable }).calls :=
  ⟨((C20_record_after_failure commitFailsScript.driver testCollaborators testUser0 () ()
      "letmein" "SCRYPT:letmein" rfl rfl rfl).2.2.2.2.2.2.2.2.1
      { id := 42, last_updated := ⟨1000, true⟩ } () rfl).1,
   (C20_record_after_failure twoRowsScript.driver testCollaborators testUser0 () ()
      "letmein" "SCRYPT:letmein" rfl rfl rfl).2.2.2.2.2.2.2.2.2.2.2.1
      [{ id := 42, last_updated := ⟨1000, true⟩ }, { id := 43, last_updated := ⟨2000, true⟩ }]
      () rfl,
   ((C20_record_after_failure MemDB.driver testCollaborators strangerUser
      { table := testTable } { table := testTable, tx := some testTable }
      "correct horse" "SCRYPT:correct horse" rfl rfl rfl).2.2.2.2.2.2.2.2.2.2.2.2.1
      { table := testTable, tx := some testTable } rfl).2,
   ((C20_record_after_failure MemDB.driver testCollaborators strangerUser
      { table := testTable } { table := testTable, tx := some testTable }
      "correct horse" "SCRYPT:correct horse" rfl rfl rfl).2.2.2.2.2.2.2.2.2.2.2.2.2
      { table := testTable } rfl).2⟩

/-! ### C14: `Delete` twice -/

